import Mathlib

/-!
Verification of the yarrql query compiler (src/ast.ts and src/postgres.ts).

The development shallowly embeds the library's typed IR, its type-inference
pass `getType`, and the Postgres lowering (`toSql` with the mutually
recursive `emitQuery` / `emitExpr` walk) as executable Lean definitions,
and proves the specification claims about them.

Modelling conventions:
* TS record-field lists (`{[name]: ...}` objects traversed with
  `Object.entries` / `Object.keys`) are embedded as cons-chains (`Fields`
  for expression records, `TFields` for record types) so that the mutual
  inductive types admit derived decidable equality and plain structural
  recursion.
* TS `throw` is embedded as `Except.error`; `undefined` flowing out of a
  property access during type inference is the extra type `Ty.undef`.
* The per-compilation context (monotonic SQL-alias counter plus the
  correlation `Map` from IR nodes to SQL aliases) is threaded explicitly.
  The TS `Map` is keyed on object identity; it is embedded as an
  association list with structural keys, which agrees with identity
  keying whenever the nodes involved are pairwise structurally distinct
  (the theorems that depend on this carry that distinctness hypothesis).
* Array-literal element values are embedded as the four scalar literal
  shapes `Lit`; `emitLiteral` in the source throws on any other value.
* In the source, `emitExpr` handles a query-typed node by calling
  `emitQuery` on the very same node and wrapping the result in
  `json_agg`.  To keep the mutual recursion structural, that delegation
  is inlined per query constructor here; the lemma
  `emitExpr_query_delegates` proves the inlined copies coincide with the
  delegation.
-/

namespace Yarrql

mutual

/-- The scalar/array/record type shapes of the embedded type system
(`Type` in src/ast.ts), plus `undef` modelling a TS `undefined` that
`getType` can produce and pass around. -/
inductive Ty where
  | null
  | bool
  | number
  | string
  | array (el : Ty)
  | record (fields : TFields)
  | undef
  deriving DecidableEq

/-- A record type's ordered field list. -/
inductive TFields where
  | nil
  | cons (name : String) (ty : Ty) (rest : TFields)
  deriving DecidableEq

end

/-- Scalar literal values that may appear in an `array` IR node
(src/postgres.ts `emitLiteral` accepts exactly null, string, boolean and
number values and throws on anything else). -/
inductive Lit where
  | nul
  | str (s : String)
  | bool (b : Bool)
  | num (n : Int)
  deriving DecidableEq

/-- `MathOperator` from src/ast.ts. -/
inductive MathOp where
  | plus
  | minus
  deriving DecidableEq

/-- `ComparisonOperator` from src/ast.ts. -/
inductive CmpOp where
  | gt
  | lt
  | gte
  | lte
  deriving DecidableEq

/-- `LogicalOperator` from src/ast.ts.  Note that the `logical_op` node
carries exactly one `left` and one `right` operand. -/
inductive LogOp where
  | and
  | or
  deriving DecidableEq

/-- Set-operation kinds of the `set_op` node from src/ast.ts. -/
inductive SetOpKind where
  | union
  | intersect
  | difference
  deriving DecidableEq

/-- `NumberWindowOperator` from src/ast.ts. -/
inductive NWOp where
  | average
  | max
  | min
  deriving DecidableEq

/-- `ScalarWindowOperator` from src/ast.ts. -/
inductive SWOp where
  | max
  | min
  deriving DecidableEq

mutual

/-- The IR node variants of src/ast.ts (the `Expr` union; query nodes are
expressions of array type and live in the same union).  A `table` node
stores its schema's field list; `record` stores its field list as the
`Fields` chain. -/
inductive Expr where
  | field (source : Expr) (name : String)
  | first (source : Expr)
  | row (source : Expr)
  | record (fields : Fields)
  | scalar_window (op : SWOp) (source : Expr)
  | number (n : Int)
  | math_op (op : MathOp) (left : Expr) (right : Expr)
  | number_window (op : NWOp) (source : Expr)
  | count (source : Expr)
  | boolean (b : Bool)
  | not (e : Expr)
  | eq (left : Expr) (right : Expr)
  | comparison_op (op : CmpOp) (left : Expr) (right : Expr)
  | logical_op (op : LogOp) (left : Expr) (right : Expr)
  | string (s : String)
  | null
  | array (values : List Lit)
  | table (name : String) (schema : TFields)
  | filter (source : Expr) (pred : Expr)
  | sort (source : Expr) (ordering : Expr)
  | limit (source : Expr) (n : Expr)
  | offset (source : Expr) (n : Expr)
  | set_op (op : SetOpKind) (left : Expr) (right : Expr)
  | map (source : Expr) (proj : Expr)
  | flat_map (source : Expr) (body : Expr)
  | group_by (source : Expr) (key : Expr)
  deriving DecidableEq

/-- A record expression's ordered field list. -/
inductive Fields where
  | nil
  | cons (name : String) (value : Expr) (rest : Fields)
  deriving DecidableEq

end

/-- The single-quote character, written by code point to keep SQL quoting
explicit. -/
def qc : Char := Char.ofNat 39

/-- A single-quote as a string. -/
def sq : String := String.singleton qc

/-- `s.replace(/'/g, "''")` from src/postgres.ts: double every single
quote. -/
def escapeQuote (s : String) : String :=
  String.mk (s.data.foldr (fun ch acc => if ch = qc then qc :: qc :: acc else ch :: acc) [])

/-- Wrap an identifier in double quotes, as the emitter does for column
and table names. -/
def dquote (s : String) : String := "\"" ++ s ++ "\""

/-- `Array.prototype.join(sep)`. -/
def joinSep (sep : String) : List String → String
  | [] => ""
  | [x] => x
  | x :: y :: xs => x ++ sep ++ joinSep sep (y :: xs)

/-- The field names of a record type, in declaration order
(`Object.keys(schema.fields)`). -/
def colNames : TFields → List String
  | .nil => []
  | .cons n _ rest => n :: colNames rest

/-- Field lookup in a record type (`recordType.fields[name]`); `none`
models the TS `undefined` result for an absent name. -/
def lookupTF : TFields → String → Option Ty
  | .nil, _ => none
  | .cons n t rest, key => if n = key then some t else lookupTF rest key

/-- `emitLiteral` from src/postgres.ts, restricted to the scalar values
it accepts. -/
def emitLiteral : Lit → String
  | .nul => "NULL"
  | .str s => sq ++ escapeQuote s ++ sq
  | .bool b => if b then "TRUE" else "FALSE"
  | .num n => toString n

/-- `getLiteralType` from src/ast.ts on a scalar value. -/
def litTy : Lit → Ty
  | .nul => .null
  | .num _ => .number
  | .str _ => .string
  | .bool _ => .bool

mutual

/-- The type-inference pass `getType` from src/ast.ts.  TS property
accesses on values that may be `undefined` are modelled exactly: reading
`.fields` of a non-record (or of `undefined`) and then indexing throws,
while reading `.el` of a non-array yields `undefined` (`Ty.undef`)
without an error; an absent field name yields `Ty.undef` without an
error. -/
def getType : Expr → Except String Ty
  | .field src f => do
      let t ← getType src
      match t with
      | .record fs => pure ((lookupTF fs f).getD .undef)
      | _ => Except.error "TypeError: cannot read properties of undefined"
  | .first src => do
      let t ← getType src
      match t with
      | .array el => pure el
      | .undef => Except.error "TypeError: cannot read properties of undefined"
      | _ => pure .undef
  | .row src => do
      let t ← getType src
      match t with
      | .array el => pure el
      | .undef => Except.error "TypeError: cannot read properties of undefined"
      | _ => pure .undef
  | .scalar_window _ src => do
      let t ← getType src
      match t with
      | .array el => pure el
      | .undef => Except.error "TypeError: cannot read properties of undefined"
      | _ => pure .undef
  | .number _ => pure .number
  | .math_op _ _ _ => pure .number
  | .number_window _ _ => pure .number
  | .count _ => pure .number
  | .boolean _ => pure .bool
  | .not _ => pure .bool
  | .eq _ _ => pure .bool
  | .comparison_op _ _ _ => pure .bool
  | .logical_op _ _ _ => pure .bool
  | .array vs =>
      match vs with
      | [] => Except.error "Wat"
      | v :: _ => pure (.array (litTy v))
  | .table _ schema => pure (.array (.record schema))
  | .filter src _ => getType src
  | .sort src _ => getType src
  | .limit src _ => getType src
  | .offset src _ => getType src
  | .set_op _ _ r => getType r
  | .map _ proj => do
      let elTy ← getType proj
      pure (.array elTy)
  | .flat_map _ body => getType body
  | .group_by src key => do
      let valType ← getType src
      let keyType ← getType key
      pure (.record (.cons "vals" valType (.cons "key" keyType .nil)))
  | .string _ => pure .string
  | .null => pure .null
  | .record fs => do
      let tfs ← getTypeFields fs
      pure (.record tfs)

/-- `getType`'s walk over a record expression's fields. -/
def getTypeFields : Fields → Except String TFields
  | .nil => pure .nil
  | .cons n v rest => do
      let t ← getType v
      let ts ← getTypeFields rest
      pure (.cons n t ts)

end

/-- The per-compilation context `SqlGenCtx` from src/postgres.ts: the
monotonic SQL-alias counter behind `aliasGenerator`, and the correlation map
from IR nodes to their current-row SQL aliases.  (The unused `depth`
field of the source is omitted.) -/
structure Ctx where
  counter : Nat
  aliasMap : List (Expr × String)
  deriving DecidableEq

/-- `ctx.aliasGen.next().value`: produce the next `_tN` SQL alias and advance
the counter. -/
def freshAlias (c : Ctx) : String × Ctx :=
  ("_t" ++ toString c.counter, ⟨c.counter + 1, c.aliasMap⟩)

/-- `ctx.aliasMap.set(q, als)`.  New entries shadow older ones, like
`Map.set` overwriting. -/
def registerAlias (c : Ctx) (k : Expr) (a : String) : Ctx :=
  ⟨c.counter, (k, a) :: c.aliasMap⟩

/-- `ctx.aliasMap.get(k)`: first (most recently set) matching entry. -/
def rowLookup : List (Expr × String) → Expr → Option String
  | [], _ => none
  | (k, a) :: rest, key => if k = key then some a else rowLookup rest key

/-- The runtime `type` tag of an IR node (used in the emitter's error
messages). -/
def tagOf : Expr → String
  | .field .. => "field"
  | .first .. => "first"
  | .row .. => "row"
  | .record .. => "record"
  | .scalar_window .. => "scalar_window"
  | .number .. => "number"
  | .math_op .. => "math_op"
  | .number_window .. => "number_window"
  | .count .. => "count"
  | .boolean .. => "boolean"
  | .not .. => "not"
  | .eq .. => "eq"
  | .comparison_op .. => "comparison_op"
  | .logical_op .. => "logical_op"
  | .string .. => "string"
  | .null => "null"
  | .array .. => "array"
  | .table .. => "table"
  | .filter .. => "filter"
  | .sort .. => "sort"
  | .limit .. => "limit"
  | .offset .. => "offset"
  | .set_op .. => "set_op"
  | .map .. => "map"
  | .flat_map .. => "flat_map"
  | .group_by .. => "group_by"

/-- Membership in the `QUERY_TYPES` set of src/postgres.ts: the node
kinds emitted as table expressions. -/
def isQueryType : Expr → Bool
  | .table .. | .filter .. | .map .. | .sort .. | .limit .. | .offset ..
  | .set_op .. | .group_by .. | .flat_map .. | .array .. => true
  | _ => false

/-- SQL keyword for a set operation
(`op === "difference" ? "EXCEPT" : op.toUpperCase()`). -/
def setOpSql : SetOpKind → String
  | .union => "UNION"
  | .intersect => "INTERSECT"
  | .difference => "EXCEPT"

/-- SQL infix text for a math operator. -/
def mathOpSql : MathOp → String
  | .plus => " + "
  | .minus => " - "

/-- SQL infix text for a comparison operator. -/
def cmpOpSql : CmpOp → String
  | .gt => " > "
  | .lt => " < "
  | .gte => " >= "
  | .lte => " <= "

/-- SQL aggregate name for a number-window operator. -/
def nwOpSql : NWOp → String
  | .average => "AVG"
  | .max => "MAX"
  | .min => "MIN"

/-- SQL aggregate name for a scalar-window operator. -/
def swOpSql : SWOp → String
  | .max => "MAX"
  | .min => "MIN"

/-- The tag test `e.source.type === "field" || e.source.type === "row"`
of `emitExpr`'s `count` case. -/
def isFieldOrRow : Expr → Bool
  | .field .. | .row .. => true
  | _ => false

/-- The tag test `mapExpr.type === "row"` of `emitQuery`'s `map` case. -/
def isRowNode : Expr → Bool
  | .row _ => true
  | _ => false

/-- The tag test `mapExpr.type === "record"` of `emitQuery`'s `map`
case. -/
def isRecordNode : Expr → Bool
  | .record _ => true
  | _ => false

/-- The `json_agg` wrapping that `emitExpr` applies around `emitQuery`'s
output when a query node is used in expression position:
`(SELECT COALESCE(json_agg(<alias>), '[]') FROM <sql>)`. -/
def jsonAggWrap (als sql : String) : String :=
  "(SELECT COALESCE(json_agg(" ++ als ++ "), " ++ sq ++ "[]" ++ sq ++ ") FROM " ++ sql ++ ")"

/-- The `SELECT` column list of a table scan:
`Object.keys(schema.fields).map(col => quoted).join(", ")`. -/
def tableColsSql (schema : TFields) : String :=
  joinSep ", " ((colNames schema).map dquote)

/-- The `VALUES` list of a non-empty literal-array node. -/
def arrayValuesSql (vs : List Lit) : String :=
  joinSep ", " (vs.map (fun v => "(" ++ emitLiteral v ++ ")"))

mutual

/-- `emitQuery` from src/postgres.ts: lower a query node to
`(sql subquery text, alias)` (the alias is bound as `als` throughout), threading the context. -/
def emitQuery : Expr → Ctx → Except String (String × String × Ctx)
  | .table name schema, c =>
      let (als, c1) := freshAlias c
      let c2 := registerAlias c1 (.table name schema) als
      pure ("(SELECT " ++ tableColsSql schema ++ " FROM " ++ dquote name ++ ") AS " ++ als,
        als, c2)
  | .filter src p, c => do
      let (srcSql, als, c1) ← emitQuery src c
      let c2 := registerAlias c1 (.filter src p) als
      let (exprSql, c3) ← emitExpr p als c2
      pure ("(SELECT * FROM " ++ srcSql ++ " WHERE " ++ exprSql ++ ") AS " ++ als, als, c3)
  | .map src proj, c => do
      let (srcSql, srcAlias, c1) ← emitQuery src c
      match proj with
      | .row _ => pure (srcSql, srcAlias, c1)
      | .record fs => do
          let (fieldsSql, c2) ← emitRecordFields fs srcAlias c1
          let (als, c3) := freshAlias c2
          pure ("(SELECT " ++ fieldsSql ++ " FROM " ++ srcSql ++ ") AS " ++ als, als, c3)
      | p => do
          let (scalarSql, c2) ← emitExpr p srcAlias c1
          let (als, c3) := freshAlias c2
          pure ("(SELECT " ++ scalarSql ++ " AS value FROM " ++ srcSql ++ ") AS " ++ als,
            als, c3)
  | .sort src ord, c => do
      let (srcSql, als, c1) ← emitQuery src c
      let (orderingSql, c2) ← emitExpr ord als c1
      pure ("(SELECT * FROM " ++ srcSql ++ " ORDER BY " ++ orderingSql ++ ") AS " ++ als,
        als, c2)
  | .limit src n, c => do
      let (srcSql, als, c1) ← emitQuery src c
      let (limitSql, c2) ← emitExpr n als c1
      pure ("(SELECT * FROM " ++ srcSql ++ " LIMIT " ++ limitSql ++ ") AS " ++ als, als, c2)
  | .offset src n, c => do
      let (srcSql, als, c1) ← emitQuery src c
      let (offsetSql, c2) ← emitExpr n als c1
      pure ("(SELECT * FROM " ++ srcSql ++ " OFFSET " ++ offsetSql ++ ") AS " ++ als, als, c2)
  | .set_op op l r, c => do
      let (leftSql, leftAlias, c1) ← emitQuery l c
      let (rightSql, _, c2) ← emitQuery r c1
      pure ("(" ++ leftSql ++ " " ++ setOpSql op ++ " " ++ rightSql ++ ")", leftAlias, c2)
  | .group_by src key, c => do
      let (srcSql, als, c1) ← emitQuery src c
      let (keyExpr, c2) ← emitExpr key als c1
      pure ("(SELECT " ++ keyExpr ++ " AS key, json_agg(" ++ als ++ ") AS vals FROM " ++
        srcSql ++ " GROUP BY " ++ keyExpr ++ ") AS " ++ als, als, c2)
  | .flat_map src body, c => do
      let (sourceSql, _, c1) ← emitQuery src c
      let (flatMapSql, fmAlias, c2) ← emitQuery body c1
      let (als, c3) := freshAlias c2
      pure ("(SELECT " ++ fmAlias ++ ".* FROM " ++ sourceSql ++ ", LATERAL " ++ flatMapSql ++
        ") AS " ++ als, als, c3)
  | .array vs, c =>
      let (als, c1) := freshAlias c
      match vs with
      | [] => pure ("(SELECT * FROM (SELECT NULL) AS empty WHERE FALSE) AS " ++ als, als, c1)
      | v :: rest =>
          pure ("(SELECT * FROM (VALUES " ++ arrayValuesSql (v :: rest) ++ ") AS t(value)) AS " ++
            als, als, c1)
  | q, _ => Except.error ("Unknown query type: " ++ tagOf q)

/-- `emitExpr` from src/postgres.ts: lower an expression node to scalar
SQL text under the given current-row als.  In the source, a
query-typed node in expression position is delegated to `emitQuery` on
the same node and wrapped with `json_agg`; that delegation is inlined
per query constructor here (see `emitExpr_query_delegates`). -/
def emitExpr : Expr → String → Ctx → Except String (String × Ctx)
  | .field src f, tableAlias, c =>
      match src with
      | .row arraySource =>
          pure (((rowLookup c.aliasMap arraySource).getD tableAlias) ++ "." ++ dquote f, c)
      | _ => pure (tableAlias ++ "." ++ dquote f, c)
  | .row src, tableAlias, c =>
      pure (((rowLookup c.aliasMap src).getD tableAlias) ++ ".*", c)
  | .first src, tableAlias, c => do
      let (srcSql, c1) ← emitExpr src tableAlias c
      pure ("(SELECT * FROM " ++ srcSql ++ " LIMIT 1)", c1)
  | .number n, _, c => pure (toString n, c)
  | .string s, _, c => pure (sq ++ escapeQuote s ++ sq, c)
  | .boolean b, _, c => pure (if b then "TRUE" else "FALSE", c)
  | .null, _, c => pure ("NULL", c)
  | .eq l r, tableAlias, c =>
      if r = .null then do
        let (ls, c1) ← emitExpr l tableAlias c
        pure ("(" ++ ls ++ " IS NULL)", c1)
      else if l = .null then do
        let (rs, c1) ← emitExpr r tableAlias c
        pure ("(" ++ rs ++ " IS NULL)", c1)
      else do
        let (ls, c1) ← emitExpr l tableAlias c
        let (rs, c2) ← emitExpr r tableAlias c1
        pure ("(" ++ ls ++ " = " ++ rs ++ ")", c2)
  | .math_op op l r, tableAlias, c => do
      let (ls, c1) ← emitExpr l tableAlias c
      let (rs, c2) ← emitExpr r tableAlias c1
      pure ("(" ++ ls ++ mathOpSql op ++ rs ++ ")", c2)
  | .comparison_op op l r, tableAlias, c => do
      let (ls, c1) ← emitExpr l tableAlias c
      let (rs, c2) ← emitExpr r tableAlias c1
      pure ("(" ++ ls ++ cmpOpSql op ++ rs ++ ")", c2)
  | .logical_op op l r, tableAlias, c => do
      let (ls, c1) ← emitExpr l tableAlias c
      let (rs, c2) ← emitExpr r tableAlias c1
      pure ("(" ++ ls ++ (if op = .and then " AND " else " OR ") ++ rs ++ ")", c2)
  | .not e, tableAlias, c => do
      let (es, c1) ← emitExpr e tableAlias c
      pure ("(NOT " ++ es ++ ")", c1)
  | .count src, tableAlias, c =>
      if isFieldOrRow src then do
        let (fieldSql, c1) ← emitExpr src tableAlias c
        pure ("COALESCE(json_array_length(" ++ fieldSql ++ "), 0)", c1)
      else do
        let (srcSql, _, c1) ← emitQuery src c
        pure ("(SELECT COUNT(*) FROM " ++ srcSql ++ ")", c1)
  | .number_window op src, _, c => do
      let (srcSql, srcAlias, c1) ← emitQuery src c
      pure ("(SELECT " ++ nwOpSql op ++ "(" ++ srcAlias ++ ".value) FROM " ++ srcSql ++ ")", c1)
  | .scalar_window op src, _, c => do
      let (srcSql, srcAlias, c1) ← emitQuery src c
      pure ("(SELECT " ++ swOpSql op ++ "(" ++ srcAlias ++ ".value) FROM " ++ srcSql ++ ")", c1)
  | .record fs, tableAlias, c => do
      let (pairs, c1) ← emitJsonPairs fs tableAlias c
      pure ("json_build_object(" ++ pairs ++ ")", c1)
  | .table name schema, _, c =>
      let (als, c1) := freshAlias c
      let c2 := registerAlias c1 (.table name schema) als
      pure (jsonAggWrap als ("(SELECT " ++ tableColsSql schema ++ " FROM " ++ dquote name ++
        ") AS " ++ als), c2)
  | .filter src p, _, c => do
      let (srcSql, als, c1) ← emitQuery src c
      let c2 := registerAlias c1 (.filter src p) als
      let (exprSql, c3) ← emitExpr p als c2
      pure (jsonAggWrap als ("(SELECT * FROM " ++ srcSql ++ " WHERE " ++ exprSql ++ ") AS " ++
        als), c3)
  | .map src proj, _, c => do
      let (srcSql, srcAlias, c1) ← emitQuery src c
      match proj with
      | .row _ => pure (jsonAggWrap srcAlias srcSql, c1)
      | .record fs => do
          let (fieldsSql, c2) ← emitRecordFields fs srcAlias c1
          let (als, c3) := freshAlias c2
          pure (jsonAggWrap als ("(SELECT " ++ fieldsSql ++ " FROM " ++ srcSql ++ ") AS " ++
            als), c3)
      | p => do
          let (scalarSql, c2) ← emitExpr p srcAlias c1
          let (als, c3) := freshAlias c2
          pure (jsonAggWrap als ("(SELECT " ++ scalarSql ++ " AS value FROM " ++ srcSql ++
            ") AS " ++ als), c3)
  | .sort src ord, _, c => do
      let (srcSql, als, c1) ← emitQuery src c
      let (orderingSql, c2) ← emitExpr ord als c1
      pure (jsonAggWrap als ("(SELECT * FROM " ++ srcSql ++ " ORDER BY " ++ orderingSql ++
        ") AS " ++ als), c2)
  | .limit src n, _, c => do
      let (srcSql, als, c1) ← emitQuery src c
      let (limitSql, c2) ← emitExpr n als c1
      pure (jsonAggWrap als ("(SELECT * FROM " ++ srcSql ++ " LIMIT " ++ limitSql ++ ") AS " ++
        als), c2)
  | .offset src n, _, c => do
      let (srcSql, als, c1) ← emitQuery src c
      let (offsetSql, c2) ← emitExpr n als c1
      pure (jsonAggWrap als ("(SELECT * FROM " ++ srcSql ++ " OFFSET " ++ offsetSql ++
        ") AS " ++ als), c2)
  | .set_op op l r, _, c => do
      let (leftSql, leftAlias, c1) ← emitQuery l c
      let (rightSql, _, c2) ← emitQuery r c1
      pure (jsonAggWrap leftAlias ("(" ++ leftSql ++ " " ++ setOpSql op ++ " " ++ rightSql ++
        ")"), c2)
  | .group_by src key, _, c => do
      let (srcSql, als, c1) ← emitQuery src c
      let (keyExpr, c2) ← emitExpr key als c1
      pure (jsonAggWrap als ("(SELECT " ++ keyExpr ++ " AS key, json_agg(" ++ als ++
        ") AS vals FROM " ++ srcSql ++ " GROUP BY " ++ keyExpr ++ ") AS " ++ als), c2)
  | .flat_map src body, _, c => do
      let (sourceSql, _, c1) ← emitQuery src c
      let (flatMapSql, fmAlias, c2) ← emitQuery body c1
      let (als, c3) := freshAlias c2
      pure (jsonAggWrap als ("(SELECT " ++ fmAlias ++ ".* FROM " ++ sourceSql ++
        ", LATERAL " ++ flatMapSql ++ ") AS " ++ als), c3)
  | .array vs, _, c =>
      let (als, c1) := freshAlias c
      match vs with
      | [] =>
          pure (jsonAggWrap als ("(SELECT * FROM (SELECT NULL) AS empty WHERE FALSE) AS " ++
            als), c1)
      | v :: rest =>
          pure (jsonAggWrap als ("(SELECT * FROM (VALUES " ++ arrayValuesSql (v :: rest) ++
            ") AS t(value)) AS " ++ als), c1)

/-- The live branch of `emitRecordFields` from src/postgres.ts (its only
call site passes a record literal): emit `expr AS "name"` per field,
joined with commas. -/
def emitRecordFields : Fields → String → Ctx → Except String (String × Ctx)
  | .nil, _, c => pure ("", c)
  | .cons n v rest, tableAlias, c => do
      let (vs, c1) ← emitExpr v tableAlias c
      match rest with
      | .nil => pure (vs ++ " AS " ++ dquote n, c1)
      | .cons m w r2 => do
          let (restSql, c2) ← emitRecordFields (.cons m w r2) tableAlias c1
          pure (vs ++ " AS " ++ dquote n ++ ", " ++ restSql, c2)

/-- The field walk of `emitExpr`'s `record` case: the
`'name', <expr>` pairs of `json_build_object`, joined with commas. -/
def emitJsonPairs : Fields → String → Ctx → Except String (String × Ctx)
  | .nil, _, c => pure ("", c)
  | .cons n v rest, tableAlias, c => do
      let (vs, c1) ← emitExpr v tableAlias c
      match rest with
      | .nil => pure (sq ++ n ++ sq ++ ", " ++ vs, c1)
      | .cons m w r2 => do
          let (restSql, c2) ← emitJsonPairs (.cons m w r2) tableAlias c1
          pure (sq ++ n ++ sq ++ ", " ++ vs ++ ", " ++ restSql, c2)

end

/-- `toSql` from src/postgres.ts: route a query-typed node to `emitQuery`
and anything else to `emitExpr` with an empty current als, starting
from a fresh context. -/
def toSql (q : Expr) : Except String String :=
  if isQueryType q then (emitQuery q ⟨0, []⟩).map (fun r => r.1)
  else (emitExpr q "" ⟨0, []⟩).map (fun r => r.1)

/-- Decidable equality for `Except` results, so that concrete emitter and
type-inference outputs can be checked by `decide`. -/
instance {e a : Type} [DecidableEq e] [DecidableEq a] : DecidableEq (Except e a) := fun x y =>
  match x, y with
  | .ok v, .ok w => decidable_of_iff (v = w) (by simp)
  | .error v, .error w => decidable_of_iff (v = w) (by simp)
  | .ok _, .error _ => isFalse (fun h => Except.noConfusion h)
  | .error _, .ok _ => isFalse (fun h => Except.noConfusion h)

/-- `withRowBuilder` from src/ast.ts, seen at the IR level: the callback
receives (builders rooted at) the row expression of the source and its
result is converted back to an IR node, so the built node is the
callback applied to `row source`. -/
def withRowBuilder (source : Expr) (fn : Expr → Expr) : Expr :=
  fn (.row source)

/-- `ArrayBuilder.filter` from src/ast.ts at the IR level. -/
def filterB (node : Expr) (fn : Expr → Expr) : Expr :=
  .filter node (withRowBuilder node fn)

/-- `ArrayBuilder.count` from src/ast.ts at the IR level. -/
def countB (node : Expr) : Expr :=
  .count node

/-- `NumberBuilder.gt` from src/ast.ts at the IR level (the argument
already converted by `toExpr`). -/
def gtB (node v : Expr) : Expr :=
  .comparison_op .gt node v

/-- `NumberBuilder.eq` from src/ast.ts at the IR level, for a non-null
argument (already converted by `toExpr`). -/
def eqB (node v : Expr) : Expr :=
  .eq node v

/-- `BooleanBuilder.not` from src/ast.ts at the IR level. -/
def notB (node : Expr) : Expr :=
  .not node

/-- `ArrayBuilder.any` from src/ast.ts:
`this.filter(fn).count().gt(0)`. -/
def anyB (node : Expr) (fn : Expr → Expr) : Expr :=
  gtB (countB (filterB node fn)) (.number 0)

/-- `ArrayBuilder.every` from src/ast.ts:
`this.filter(val => fn(val).not()).count().eq(0)`. -/
def everyB (node : Expr) (fn : Expr → Expr) : Expr :=
  eqB (countB (filterB node (fun v => notB (fn v)))) (.number 0)

/-- A query node whose emitted SQL is (by the identity-projection
pass-through of `map`) the SQL of a `set_op` node: `set_op` itself, or an
identity `map` over such a node.  `emitQuery` returns an unaliased
`(<left> <op> <right>)` exactly for these. -/
def hasSetOpSpine : Expr → Bool
  | .set_op .. => true
  | .map src proj =>
      match proj with
      | .row _ => hasSetOpSpine src
      | _ => false
  | _ => false

mutual

/-- Node count of an IR tree. -/
def sizeE : Expr → Nat
  | .field src _ => 1 + sizeE src
  | .first src => 1 + sizeE src
  | .row src => 1 + sizeE src
  | .record fs => 1 + sizeF fs
  | .scalar_window _ src => 1 + sizeE src
  | .number _ => 1
  | .math_op _ l r => 1 + sizeE l + sizeE r
  | .number_window _ src => 1 + sizeE src
  | .count src => 1 + sizeE src
  | .boolean _ => 1
  | .not e => 1 + sizeE e
  | .eq l r => 1 + sizeE l + sizeE r
  | .comparison_op _ l r => 1 + sizeE l + sizeE r
  | .logical_op _ l r => 1 + sizeE l + sizeE r
  | .string _ => 1
  | .null => 1
  | .array _ => 1
  | .table _ _ => 1
  | .filter s p => 1 + sizeE s + sizeE p
  | .sort s o => 1 + sizeE s + sizeE o
  | .limit s n => 1 + sizeE s + sizeE n
  | .offset s n => 1 + sizeE s + sizeE n
  | .set_op _ l r => 1 + sizeE l + sizeE r
  | .map s p => 1 + sizeE s + sizeE p
  | .flat_map s b => 1 + sizeE s + sizeE b
  | .group_by s k => 1 + sizeE s + sizeE k

/-- Node count of a field chain. -/
def sizeF : Fields → Nat
  | .nil => 1
  | .cons _ v rest => 1 + sizeE v + sizeF rest

end

set_option maxHeartbeats 2000000

mutual

/-- Fuel-indexed variant of `emitQuery`, recursing on the fuel: every
recursive call spends one unit.  `none` means the fuel ran out or the
source would have thrown.  `emit_fueled_agree` shows fuel equal to
the IR size suffices, which is the precise sense in which the
`emitQuery`/`emitExpr` walk terminates within a bound given by the
(acyclic) IR size. -/
def emitQueryF : Nat → Expr → Ctx → Option (String × String × Ctx)
  | 0, _, _ => none
  | fuel+1, q, c =>
      match q with
      | .table name schema =>
          let (als, c1) := freshAlias c
          let c2 := registerAlias c1 (.table name schema) als
          some ("(SELECT " ++ tableColsSql schema ++ " FROM " ++ dquote name ++ ") AS " ++ als,
            als, c2)
      | .filter src p => do
          let (srcSql, als, c1) ← emitQueryF fuel src c
          let c2 := registerAlias c1 (.filter src p) als
          let (exprSql, c3) ← emitExprF fuel p als c2
          some ("(SELECT * FROM " ++ srcSql ++ " WHERE " ++ exprSql ++ ") AS " ++ als, als, c3)
      | .map src proj => do
          let (srcSql, srcAlias, c1) ← emitQueryF fuel src c
          match proj with
          | .row _ => some (srcSql, srcAlias, c1)
          | .record fs => do
              let (fieldsSql, c2) ← emitRecordFieldsF fuel fs srcAlias c1
              let (als, c3) := freshAlias c2
              some ("(SELECT " ++ fieldsSql ++ " FROM " ++ srcSql ++ ") AS " ++ als, als, c3)
          | p => do
              let (scalarSql, c2) ← emitExprF fuel p srcAlias c1
              let (als, c3) := freshAlias c2
              some ("(SELECT " ++ scalarSql ++ " AS value FROM " ++ srcSql ++ ") AS " ++ als,
                als, c3)
      | .sort src ord => do
          let (srcSql, als, c1) ← emitQueryF fuel src c
          let (orderingSql, c2) ← emitExprF fuel ord als c1
          some ("(SELECT * FROM " ++ srcSql ++ " ORDER BY " ++ orderingSql ++ ") AS " ++ als,
            als, c2)
      | .limit src n => do
          let (srcSql, als, c1) ← emitQueryF fuel src c
          let (limitSql, c2) ← emitExprF fuel n als c1
          some ("(SELECT * FROM " ++ srcSql ++ " LIMIT " ++ limitSql ++ ") AS " ++ als, als, c2)
      | .offset src n => do
          let (srcSql, als, c1) ← emitQueryF fuel src c
          let (offsetSql, c2) ← emitExprF fuel n als c1
          some ("(SELECT * FROM " ++ srcSql ++ " OFFSET " ++ offsetSql ++ ") AS " ++ als, als, c2)
      | .set_op op l r => do
          let (leftSql, leftAlias, c1) ← emitQueryF fuel l c
          let (rightSql, _, c2) ← emitQueryF fuel r c1
          some ("(" ++ leftSql ++ " " ++ setOpSql op ++ " " ++ rightSql ++ ")", leftAlias, c2)
      | .group_by src key => do
          let (srcSql, als, c1) ← emitQueryF fuel src c
          let (keyExpr, c2) ← emitExprF fuel key als c1
          some ("(SELECT " ++ keyExpr ++ " AS key, json_agg(" ++ als ++ ") AS vals FROM " ++
            srcSql ++ " GROUP BY " ++ keyExpr ++ ") AS " ++ als, als, c2)
      | .flat_map src body => do
          let (sourceSql, _, c1) ← emitQueryF fuel src c
          let (flatMapSql, fmAlias, c2) ← emitQueryF fuel body c1
          let (als, c3) := freshAlias c2
          some ("(SELECT " ++ fmAlias ++ ".* FROM " ++ sourceSql ++ ", LATERAL " ++ flatMapSql ++
            ") AS " ++ als, als, c3)
      | .array vs =>
          let (als, c1) := freshAlias c
          match vs with
          | [] => some ("(SELECT * FROM (SELECT NULL) AS empty WHERE FALSE) AS " ++ als, als, c1)
          | v :: rest =>
              some ("(SELECT * FROM (VALUES " ++ arrayValuesSql (v :: rest) ++
                ") AS t(value)) AS " ++ als, als, c1)
      | _ => none

/-- Fuel-indexed variant of `emitExpr`; see `emitQueryF`.  The
query-typed cases delegate to `emitQueryF` on the same node, as the
source does. -/
def emitExprF : Nat → Expr → String → Ctx → Option (String × Ctx)
  | 0, _, _, _ => none
  | fuel+1, e, tableAlias, c =>
      match e with
      | .field src f =>
          match src with
          | .row arraySource =>
              some (((rowLookup c.aliasMap arraySource).getD tableAlias) ++ "." ++ dquote f, c)
          | _ => some (tableAlias ++ "." ++ dquote f, c)
      | .row src => some (((rowLookup c.aliasMap src).getD tableAlias) ++ ".*", c)
      | .first src => do
          let (srcSql, c1) ← emitExprF fuel src tableAlias c
          some ("(SELECT * FROM " ++ srcSql ++ " LIMIT 1)", c1)
      | .number n => some (toString n, c)
      | .string s => some (sq ++ escapeQuote s ++ sq, c)
      | .boolean b => some (if b then "TRUE" else "FALSE", c)
      | .null => some ("NULL", c)
      | .eq l r =>
          if r = .null then do
            let (ls, c1) ← emitExprF fuel l tableAlias c
            some ("(" ++ ls ++ " IS NULL)", c1)
          else if l = .null then do
            let (rs, c1) ← emitExprF fuel r tableAlias c
            some ("(" ++ rs ++ " IS NULL)", c1)
          else do
            let (ls, c1) ← emitExprF fuel l tableAlias c
            let (rs, c2) ← emitExprF fuel r tableAlias c1
            some ("(" ++ ls ++ " = " ++ rs ++ ")", c2)
      | .math_op op l r => do
          let (ls, c1) ← emitExprF fuel l tableAlias c
          let (rs, c2) ← emitExprF fuel r tableAlias c1
          some ("(" ++ ls ++ mathOpSql op ++ rs ++ ")", c2)
      | .comparison_op op l r => do
          let (ls, c1) ← emitExprF fuel l tableAlias c
          let (rs, c2) ← emitExprF fuel r tableAlias c1
          some ("(" ++ ls ++ cmpOpSql op ++ rs ++ ")", c2)
      | .logical_op op l r => do
          let (ls, c1) ← emitExprF fuel l tableAlias c
          let (rs, c2) ← emitExprF fuel r tableAlias c1
          some ("(" ++ ls ++ (if op = .and then " AND " else " OR ") ++ rs ++ ")", c2)
      | .not e1 => do
          let (es, c1) ← emitExprF fuel e1 tableAlias c
          some ("(NOT " ++ es ++ ")", c1)
      | .count src =>
          if isFieldOrRow src then do
            let (fieldSql, c1) ← emitExprF fuel src tableAlias c
            some ("COALESCE(json_array_length(" ++ fieldSql ++ "), 0)", c1)
          else do
            let (srcSql, _, c1) ← emitQueryF fuel src c
            some ("(SELECT COUNT(*) FROM " ++ srcSql ++ ")", c1)
      | .number_window op src => do
          let (srcSql, srcAlias, c1) ← emitQueryF fuel src c
          some ("(SELECT " ++ nwOpSql op ++ "(" ++ srcAlias ++ ".value) FROM " ++ srcSql ++ ")",
            c1)
      | .scalar_window op src => do
          let (srcSql, srcAlias, c1) ← emitQueryF fuel src c
          some ("(SELECT " ++ swOpSql op ++ "(" ++ srcAlias ++ ".value) FROM " ++ srcSql ++ ")",
            c1)
      | .record fs => do
          let (pairs, c1) ← emitJsonPairsF fuel fs tableAlias c
          some ("json_build_object(" ++ pairs ++ ")", c1)
      | q => do
          let (srcSql, srcAlias, c1) ← emitQueryF fuel q c
          some (jsonAggWrap srcAlias srcSql, c1)

/-- Fuel-indexed variant of `emitRecordFields`; see `emitQueryF`. -/
def emitRecordFieldsF : Nat → Fields → String → Ctx → Option (String × Ctx)
  | 0, _, _, _ => none
  | fuel+1, fs, tableAlias, c =>
      match fs with
      | .nil => some ("", c)
      | .cons n v rest => do
          let (vs, c1) ← emitExprF fuel v tableAlias c
          match rest with
          | .nil => some (vs ++ " AS " ++ dquote n, c1)
          | .cons m w r2 => do
              let (restSql, c2) ← emitRecordFieldsF fuel (.cons m w r2) tableAlias c1
              some (vs ++ " AS " ++ dquote n ++ ", " ++ restSql, c2)

/-- Fuel-indexed variant of `emitJsonPairs`; see `emitQueryF`. -/
def emitJsonPairsF : Nat → Fields → String → Ctx → Option (String × Ctx)
  | 0, _, _, _ => none
  | fuel+1, fs, tableAlias, c =>
      match fs with
      | .nil => some ("", c)
      | .cons n v rest => do
          let (vs, c1) ← emitExprF fuel v tableAlias c
          match rest with
          | .nil => some (sq ++ n ++ sq ++ ", " ++ vs, c1)
          | .cons m w r2 => do
              let (restSql, c2) ← emitJsonPairsF fuel (.cons m w r2) tableAlias c1
              some (sq ++ n ++ sq ++ ", " ++ vs ++ ", " ++ restSql, c2)

end

/-- Whether a type is a record type carrying the given field name. -/
def tyHasField : Ty → String → Bool
  | .record fs, f => (lookupTF fs f).isSome
  | _, _ => false

/-!
Theorems.  Each claim of the specification is settled by exactly one
named theorem below (with a witness theorem when the statement carries
hypotheses).  Shared helper lemmas come first: small reduction rules for
`Except`, and definitional one-step unfoldings of the emitter at each
node shape used by the claims (each proved by `rfl`, so they are exactly
the corresponding branches of the source functions).
-/

theorem ok_bind {a b : Type} (v : a) (f : a → Except String b) :
    (Except.ok v : Except String a) >>= f = f v := rfl

theorem error_bind {a b : Type} (m : String) (f : a → Except String b) :
    (Except.error m : Except String a) >>= f = Except.error m := rfl

theorem pure_eq_ok {a : Type} (v : a) : (pure v : Except String a) = Except.ok v := rfl

theorem emitQuery_filter_unfold (q p : Expr) (c : Ctx) :
    emitQuery (.filter q p) c = (do
      let (srcSql, als, c1) ← emitQuery q c
      let c2 := registerAlias c1 (.filter q p) als
      let (exprSql, c3) ← emitExpr p als c2
      pure ("(SELECT * FROM " ++ srcSql ++ " WHERE " ++ exprSql ++ ") AS " ++ als, als, c3)) :=
  rfl

theorem emitQuery_sort_unfold (q p : Expr) (c : Ctx) :
    emitQuery (.sort q p) c = (do
      let (srcSql, als, c1) ← emitQuery q c
      let (orderingSql, c2) ← emitExpr p als c1
      pure ("(SELECT * FROM " ++ srcSql ++ " ORDER BY " ++ orderingSql ++ ") AS " ++ als,
        als, c2)) :=
  rfl

theorem emitQuery_limit_unfold (q p : Expr) (c : Ctx) :
    emitQuery (.limit q p) c = (do
      let (srcSql, als, c1) ← emitQuery q c
      let (limitSql, c2) ← emitExpr p als c1
      pure ("(SELECT * FROM " ++ srcSql ++ " LIMIT " ++ limitSql ++ ") AS " ++ als, als, c2)) :=
  rfl

theorem emitQuery_offset_unfold (q p : Expr) (c : Ctx) :
    emitQuery (.offset q p) c = (do
      let (srcSql, als, c1) ← emitQuery q c
      let (offsetSql, c2) ← emitExpr p als c1
      pure ("(SELECT * FROM " ++ srcSql ++ " OFFSET " ++ offsetSql ++ ") AS " ++ als, als, c2)) :=
  rfl

theorem emitExpr_eq_unfold (l r : Expr) (a : String) (c : Ctx) :
    emitExpr (.eq l r) a c =
      (if r = .null then do
        let (ls, c1) ← emitExpr l a c
        pure ("(" ++ ls ++ " IS NULL)", c1)
      else if l = .null then do
        let (rs, c1) ← emitExpr r a c
        pure ("(" ++ rs ++ " IS NULL)", c1)
      else do
        let (ls, c1) ← emitExpr l a c
        let (rs, c2) ← emitExpr r a c1
        pure ("(" ++ ls ++ " = " ++ rs ++ ")", c2)) := rfl

theorem emitExpr_logical_unfold (op : LogOp) (l r : Expr) (a : String) (c : Ctx) :
    emitExpr (.logical_op op l r) a c = (do
      let (ls, c1) ← emitExpr l a c
      let (rs, c2) ← emitExpr r a c1
      pure ("(" ++ ls ++ (if op = .and then " AND " else " OR ") ++ rs ++ ")", c2)) :=
  rfl

/-- C7: the combinator `any(fn)` builds exactly the IR of `filter(fn)`
followed by `count()` compared greater-than 0, and `every(fn)` builds
exactly the IR of `filter` over the negated callback followed by
`count()` compared equal to 0. -/
theorem c7_any_every_definitional (q : Expr) (fn : Expr → Expr) :
    anyB q fn = .comparison_op .gt (.count (.filter q (fn (.row q)))) (.number 0) ∧
    everyB q fn = .eq (.count (.filter q (.not (fn (.row q))))) (.number 0) :=
  ⟨rfl, rfl⟩

/-- C10: lowering an empty array literal does not fail: `emitQuery`
draws a fresh alias and emits the zero-row subquery
`(SELECT * FROM (SELECT NULL) AS empty WHERE FALSE) AS <alias>`. -/
theorem c10_empty_array_literal (c : Ctx) :
    emitQuery (.array []) c =
      Except.ok ("(SELECT * FROM (SELECT NULL) AS empty WHERE FALSE) AS " ++
        ("_t" ++ toString c.counter), "_t" ++ toString c.counter,
        ⟨c.counter + 1, c.aliasMap⟩) := rfl

/-- C2: lowering `eq(x, Null())` and `eq(Null(), x)` both produce
`(<x> IS NULL)` (around `x`'s own lowering, with `x`'s context effect),
for every scalar expression `x`; the `= NULL` branch of the `eq` case is
never taken when a Null literal is on either side. -/
theorem c2_eq_null_is_null (x : Expr) (a : String) (c : Ctx) :
    emitExpr (.eq x .null) a c = (do
      let (xs, c1) ← emitExpr x a c
      pure ("(" ++ xs ++ " IS NULL)", c1)) ∧
    emitExpr (.eq .null x) a c = (do
      let (xs, c1) ← emitExpr x a c
      pure ("(" ++ xs ++ " IS NULL)", c1)) := by
  constructor
  · rw [emitExpr_eq_unfold, if_pos rfl]
  · by_cases hx : x = Expr.null
    · subst hx
      rw [emitExpr_eq_unfold, if_pos rfl]
    · rw [emitExpr_eq_unfold, if_neg hx, if_pos rfl]

/-- C5: the `logical_op` node of the current IR is strictly binary; its
lowering always emits the two-operand forms `(<l> AND <r>)` and
`(<l> OR <r>)`.  No empty-operand node is representable and no
`TRUE`/`FALSE` identity lowering exists in the emitter, although the
repository's own test suite ("should handle empty logical operations")
expects `{op: "and", args: []}` to lower to `TRUE`. -/
theorem c5_logical_op_binary (l r : Expr) (a : String) (c : Ctx) (ls rs : String)
    (c1 c2 : Ctx) (hl : emitExpr l a c = Except.ok (ls, c1))
    (hr : emitExpr r a c1 = Except.ok (rs, c2)) :
    emitExpr (.logical_op .and l r) a c = Except.ok ("(" ++ ls ++ " AND " ++ rs ++ ")", c2) ∧
    emitExpr (.logical_op .or l r) a c = Except.ok ("(" ++ ls ++ " OR " ++ rs ++ ")", c2) := by
  constructor <;>
    simp only [emitExpr_logical_unfold, hl, hr, ok_bind, pure_eq_ok, if_true, if_false] <;>
    rfl

/-- C5 witness: the binary lowering applied at concrete boolean
literals. -/
theorem c5_logical_op_binary_witness :
    emitExpr (.logical_op .and (.boolean true) (.boolean false)) "_t0" ⟨0, []⟩ =
      Except.ok ("(TRUE AND FALSE)", ⟨0, []⟩) ∧
    emitExpr (.logical_op .or (.boolean true) (.boolean false)) "_t0" ⟨0, []⟩ =
      Except.ok ("(TRUE OR FALSE)", ⟨0, []⟩) :=
  c5_logical_op_binary (.boolean true) (.boolean false) "_t0" ⟨0, []⟩ "TRUE" "FALSE"
    ⟨0, []⟩ ⟨0, []⟩ rfl rfl

/-- C3: `emitQuery` on `Filter`, `Sort`, `Limit` and `Offset` returns the
source's alias unchanged (no fresh alias is drawn for the wrapper) and
wraps the source SQL with `WHERE`, `ORDER BY`, `LIMIT` and `OFFSET`
respectively. -/
theorem c3_wrappers_preserve_alias (q p : Expr) (c : Ctx) (ssql a : String) (c1 : Ctx)
    (hsrc : emitQuery q c = Except.ok (ssql, a, c1)) :
    (∀ psql c2, emitExpr p a (registerAlias c1 (.filter q p) a) = Except.ok (psql, c2) →
      emitQuery (.filter q p) c =
        Except.ok ("(SELECT * FROM " ++ ssql ++ " WHERE " ++ psql ++ ") AS " ++ a, a, c2)) ∧
    (∀ osql c2, emitExpr p a c1 = Except.ok (osql, c2) →
      emitQuery (.sort q p) c =
        Except.ok ("(SELECT * FROM " ++ ssql ++ " ORDER BY " ++ osql ++ ") AS " ++ a, a, c2)) ∧
    (∀ nsql c2, emitExpr p a c1 = Except.ok (nsql, c2) →
      emitQuery (.limit q p) c =
        Except.ok ("(SELECT * FROM " ++ ssql ++ " LIMIT " ++ nsql ++ ") AS " ++ a, a, c2)) ∧
    (∀ nsql c2, emitExpr p a c1 = Except.ok (nsql, c2) →
      emitQuery (.offset q p) c =
        Except.ok ("(SELECT * FROM " ++ ssql ++ " OFFSET " ++ nsql ++ ") AS " ++ a, a, c2)) := by
  refine ⟨?_, ?_, ?_, ?_⟩ <;> intro s2 c2 hp <;>
    simp only [emitQuery_filter_unfold, emitQuery_sort_unfold, emitQuery_limit_unfold,
      emitQuery_offset_unfold, hsrc, ok_bind, hp, pure_eq_ok]

theorem getType_field_unfold (src : Expr) (f : String) :
    getType (.field src f) = (do
      let t ← getType src
      match t with
      | .record fs => pure ((lookupTF fs f).getD .undef)
      | _ => Except.error "TypeError: cannot read properties of undefined") := rfl

theorem getType_group_by_unfold (src key : Expr) :
    getType (.group_by src key) = (do
      let valType ← getType src
      let keyType ← getType key
      pure (.record (.cons "vals" valType (.cons "key" keyType .nil)))) := rfl

/-- C3 witness: the filter conjunct applied at a concrete table and
predicate. -/
theorem c3_wrappers_preserve_alias_witness :
    emitQuery (.filter (.table "students" (.cons "age" .number .nil)) (.boolean true)) ⟨0, []⟩ =
      Except.ok ("(SELECT * FROM (SELECT \"age\" FROM \"students\") AS _t0 WHERE TRUE) AS _t0",
        "_t0",
        ⟨1, [(.filter (.table "students" (.cons "age" .number .nil)) (.boolean true), "_t0"),
          (.table "students" (.cons "age" .number .nil), "_t0")]⟩) :=
  (c3_wrappers_preserve_alias (.table "students" (.cons "age" .number .nil)) (.boolean true)
    ⟨0, []⟩ "(SELECT \"age\" FROM \"students\") AS _t0" "_t0"
    ⟨1, [(.table "students" (.cons "age" .number .nil), "_t0")]⟩ (by decide)).1
    "TRUE"
    ⟨1, [(.filter (.table "students" (.cons "age" .number .nil)) (.boolean true), "_t0"),
      (.table "students" (.cons "age" .number .nil), "_t0")]⟩ (by decide)

/-- C4 counterexample: at a concrete record-typed source whose type lacks
the field "missing", `getType` of the `Field` node does not fail — so the
claim that an absent field name raises a type-inference error is false on
the code. -/
theorem c4_absent_field_no_error_counterexample :
    ¬ ∃ msg, getType (.field (.row (.table "students" (.cons "id" .string .nil))) "missing") =
      Except.error msg := by
  have hv : getType (.field (.row (.table "students" (.cons "id" .string .nil))) "missing") =
      Except.ok .undef := by decide
  rintro ⟨m, h⟩
  rw [hv] at h
  exact Except.noConfusion h

/-- C4 (amended): `getType` on a `Field` node whose name is absent from
its source's record type does not raise: it silently returns the TS
`undefined` (`Ty.undef`), for every record-typed source expression and
absent field name.  (An error surfaces only later, if the undefined type
is itself consumed.) -/
theorem c4_absent_field_silently_undef (src : Expr) (fname : String) (fs : TFields)
    (hs : getType src = Except.ok (.record fs)) (habs : lookupTF fs fname = none) :
    getType (.field src fname) = Except.ok .undef := by
  simp only [getType_field_unfold, hs, ok_bind, habs, Option.getD_none, pure_eq_ok]

/-- C4 witness: the amended theorem applied at the concrete input of the
counterexample. -/
theorem c4_absent_field_silently_undef_witness :
    getType (.field (.row (.table "students" (.cons "id" .string .nil))) "missing") =
      Except.ok .undef :=
  c4_absent_field_silently_undef (.row (.table "students" (.cons "id" .string .nil))) "missing"
    (.cons "id" .string .nil) (by decide) (by decide)

/-- C8 counterexample: at a concrete `group_by` node the inferred result
type is a record with fields named `vals` and `key`; it has no field
named `values`, so the claimed result shape — a record of `key` together
with a field named `values` — is false on the code. -/
theorem c8_group_by_no_values_field_counterexample :
    ¬ ∃ t, getType (.group_by (.table "t" (.cons "a" .string .nil))
        (.field (.row (.table "t" (.cons "a" .string .nil))) "a")) = Except.ok t ∧
      tyHasField t "values" = true := by
  have hv : getType (.group_by (.table "t" (.cons "a" .string .nil))
      (.field (.row (.table "t" (.cons "a" .string .nil))) "a")) =
      Except.ok (.record (.cons "vals" (.array (.record (.cons "a" .string .nil)))
        (.cons "key" .string .nil))) := by decide
  rintro ⟨t, h1, h2⟩
  rw [hv] at h1
  injection h1 with h
  subst h
  exact absurd h2 (by decide)

/-- C8 (amended): type inference assigns a `GroupBy` node the record
type whose first field, named `vals` (not `values`), holds the source's
type — for an array-typed source, the array of the source's element
type — and whose second field `key` holds the key expression's type. -/
theorem c8_group_by_type (src key : Expr) (vt kt : Ty)
    (hs : getType src = Except.ok vt) (hk : getType key = Except.ok kt) :
    getType (.group_by src key) =
      Except.ok (.record (.cons "vals" vt (.cons "key" kt .nil))) := by
  simp only [getType_group_by_unfold, hs, hk, ok_bind, pure_eq_ok]

/-- C8 witness: the amended theorem at a concrete table source, where the
`vals` field indeed holds the array of the source's element type. -/
theorem c8_group_by_type_witness :
    getType (.group_by (.table "t" (.cons "a" .string .nil))
        (.field (.row (.table "t" (.cons "a" .string .nil))) "a")) =
      Except.ok (.record (.cons "vals" (.array (.record (.cons "a" .string .nil)))
        (.cons "key" .string .nil))) :=
  c8_group_by_type (.table "t" (.cons "a" .string .nil))
    (.field (.row (.table "t" (.cons "a" .string .nil))) "a")
    (.array (.record (.cons "a" .string .nil))) .string (by decide) (by decide)

theorem rowLookup_cons (k : Expr) (a : String) (rest : List (Expr × String)) (key : Expr) :
    rowLookup ((k, a) :: rest) key = if k = key then some a else rowLookup rest key := rfl

theorem toSql_map_unfold (src proj : Expr) :
    toSql (.map src proj) = (emitQuery (.map src proj) ⟨0, []⟩).map (fun r => r.1) := rfl

theorem emitQuery_table_unfold (n : String) (ts : TFields) (k : Nat)
    (m : List (Expr × String)) :
    emitQuery (.table n ts) ⟨k, m⟩ =
      Except.ok ("(SELECT " ++ tableColsSql ts ++ " FROM " ++ dquote n ++ ") AS " ++
        ("_t" ++ toString k), "_t" ++ toString k,
        ⟨k + 1, (.table n ts, "_t" ++ toString k) :: m⟩) := rfl

theorem emitQuery_map_record_unfold (src : Expr) (fs : Fields) (c : Ctx) :
    emitQuery (.map src (.record fs)) c = (do
      let (srcSql, srcAlias, c1) ← emitQuery src c
      let (fieldsSql, c2) ← emitRecordFields fs srcAlias c1
      let (als, c3) := freshAlias c2
      pure ("(SELECT " ++ fieldsSql ++ " FROM " ++ srcSql ++ ") AS " ++ als, als, c3)) := rfl

theorem emitExpr_field_row_unfold (asrc : Expr) (f a : String) (c : Ctx) :
    emitExpr (.field (.row asrc) f) a c =
      Except.ok (((rowLookup c.aliasMap asrc).getD a) ++ "." ++ dquote f, c) := rfl

theorem emitExpr_eq_fields_unfold (x y : Expr) (f g a : String) (c : Ctx) :
    emitExpr (.eq (.field (.row x) f) (.field (.row y) g)) a c =
      Except.ok ("(" ++ (((rowLookup c.aliasMap x).getD a) ++ "." ++ dquote f) ++ " = " ++
        (((rowLookup c.aliasMap y).getD a) ++ "." ++ dquote g) ++ ")", c) := rfl

theorem emitExpr_count_filter_unfold (s p : Expr) (a : String) (c : Ctx) :
    emitExpr (.count (.filter s p)) a c = (do
      let (srcSql, _, c1) ← emitQuery (.filter s p) c
      pure ("(SELECT COUNT(*) FROM " ++ srcSql ++ ")", c1)) := rfl

theorem emitRecordFields_cons2_unfold (n1 : String) (v1 : Expr) (n2 : String) (v2 : Expr)
    (r2 : Fields) (a : String) (c : Ctx) :
    emitRecordFields (.cons n1 v1 (.cons n2 v2 r2)) a c = (do
      let (vs, c1) ← emitExpr v1 a c
      let (restSql, c2) ← emitRecordFields (.cons n2 v2 r2) a c1
      pure (vs ++ " AS " ++ dquote n1 ++ ", " ++ restSql, c2)) := rfl

theorem emitRecordFields_cons1_unfold (n : String) (v : Expr) (a : String) (c : Ctx) :
    emitRecordFields (.cons n v .nil) a c = (do
      let (vs, c1) ← emitExpr v a c
      pure (vs ++ " AS " ++ dquote n, c1)) := rfl

/-- C1: the correlated-subquery scenario.  Mapping an outer table to a
record with a plain field projection and a `count` over an inner filter
whose predicate compares an inner-row field with an outer-row field:
the emitted predicate qualifies the outer-row field with the alias
`_t0` that was registered for the outer table's IR node in the
correlation map, not with the inner alias `_t1` — provided the outer
table node is structurally distinct from the inner one, which is what
object identity guarantees in the source. -/
theorem c1_outer_correlation (tn cn g f : String) (ts cs : TFields)
    (hne : ¬ (tn = cn ∧ ts = cs)) :
    toSql (.map (.table tn ts) (.record (.cons "id" (.field (.row (.table tn ts)) g)
      (.cons "classCount" (.count (.filter (.table cn cs)
        (.eq (.field (.row (.table cn cs)) f) (.field (.row (.table tn ts)) g)))) .nil)))) =
    Except.ok ("(SELECT " ++
      (("_t0." ++ dquote g) ++ " AS " ++ dquote "id" ++ ", " ++
        (("(SELECT COUNT(*) FROM " ++
          ("(SELECT * FROM " ++
            ("(SELECT " ++ tableColsSql cs ++ " FROM " ++ dquote cn ++ ") AS " ++ "_t1") ++
            " WHERE " ++
            ("(" ++ ("_t1." ++ dquote f) ++ " = " ++ ("_t0." ++ dquote g) ++ ")") ++
            ") AS " ++ "_t1") ++ ")") ++
          " AS " ++ dquote "classCount")) ++
      " FROM " ++
      ("(SELECT " ++ tableColsSql ts ++ " FROM " ++ dquote tn ++ ") AS " ++ "_t0") ++
      ") AS " ++ "_t2") := by
  have hCT : ¬ (Expr.table cn cs = Expr.table tn ts) := by
    intro h
    injection h with h1 h2
    exact hne ⟨h1.symm, h2.symm⟩
  have hT : emitQuery (.table tn ts) ⟨0, []⟩ =
      Except.ok ("(SELECT " ++ tableColsSql ts ++ " FROM " ++ dquote tn ++ ") AS " ++ "_t0",
        "_t0", ⟨1, [(.table tn ts, "_t0")]⟩) := by
    rw [emitQuery_table_unfold]
    all_goals rfl
  have hC : emitQuery (.table cn cs) ⟨1, [(.table tn ts, "_t0")]⟩ =
      Except.ok ("(SELECT " ++ tableColsSql cs ++ " FROM " ++ dquote cn ++ ") AS " ++ "_t1",
        "_t1", ⟨2, [(.table cn cs, "_t1"), (.table tn ts, "_t0")]⟩) := by
    rw [emitQuery_table_unfold]
    all_goals rfl
  have hfield1 : emitExpr (.field (.row (.table tn ts)) g) "_t0" ⟨1, [(.table tn ts, "_t0")]⟩ =
      Except.ok ("_t0." ++ dquote g, ⟨1, [(.table tn ts, "_t0")]⟩) := by
    rw [emitExpr_field_row_unfold]
    rw [show rowLookup [(Expr.table tn ts, "_t0")] (.table tn ts) = some "_t0" by
      rw [rowLookup_cons, if_pos rfl]]
    all_goals rfl
  have hlookC : rowLookup
      [(Expr.filter (.table cn cs)
          (.eq (.field (.row (.table cn cs)) f) (.field (.row (.table tn ts)) g)), "_t1"),
        (Expr.table cn cs, "_t1"), (Expr.table tn ts, "_t0")] (.table cn cs) = some "_t1" := by
    rw [rowLookup_cons, if_neg (fun h => Expr.noConfusion h), rowLookup_cons, if_pos rfl]
  have hlookT : rowLookup
      [(Expr.filter (.table cn cs)
          (.eq (.field (.row (.table cn cs)) f) (.field (.row (.table tn ts)) g)), "_t1"),
        (Expr.table cn cs, "_t1"), (Expr.table tn ts, "_t0")] (.table tn ts) = some "_t0" := by
    rw [rowLookup_cons, if_neg (fun h => Expr.noConfusion h), rowLookup_cons, if_neg hCT,
      rowLookup_cons, if_pos rfl]
  have hpred : emitExpr
      (.eq (.field (.row (.table cn cs)) f) (.field (.row (.table tn ts)) g)) "_t1"
      ⟨2, [(Expr.filter (.table cn cs)
          (.eq (.field (.row (.table cn cs)) f) (.field (.row (.table tn ts)) g)), "_t1"),
        (Expr.table cn cs, "_t1"), (Expr.table tn ts, "_t0")]⟩ =
      Except.ok ("(" ++ ("_t1." ++ dquote f) ++ " = " ++ ("_t0." ++ dquote g) ++ ")",
        ⟨2, [(Expr.filter (.table cn cs)
            (.eq (.field (.row (.table cn cs)) f) (.field (.row (.table tn ts)) g)), "_t1"),
          (Expr.table cn cs, "_t1"), (Expr.table tn ts, "_t0")]⟩) := by
    rw [emitExpr_eq_fields_unfold, hlookC, hlookT]
    all_goals rfl
  have hF : emitQuery (.filter (.table cn cs)
      (.eq (.field (.row (.table cn cs)) f) (.field (.row (.table tn ts)) g)))
      ⟨1, [(.table tn ts, "_t0")]⟩ =
      Except.ok (("(SELECT * FROM " ++
          ("(SELECT " ++ tableColsSql cs ++ " FROM " ++ dquote cn ++ ") AS " ++ "_t1") ++
          " WHERE " ++
          ("(" ++ ("_t1." ++ dquote f) ++ " = " ++ ("_t0." ++ dquote g) ++ ")") ++
          ") AS " ++ "_t1"), "_t1",
        ⟨2, [(Expr.filter (.table cn cs)
            (.eq (.field (.row (.table cn cs)) f) (.field (.row (.table tn ts)) g)), "_t1"),
          (Expr.table cn cs, "_t1"), (Expr.table tn ts, "_t0")]⟩) := by
    simp only [emitQuery_filter_unfold, hC, ok_bind, registerAlias, hpred, pure_eq_ok]
  have hcount : emitExpr (.count (.filter (.table cn cs)
      (.eq (.field (.row (.table cn cs)) f) (.field (.row (.table tn ts)) g)))) "_t0"
      ⟨1, [(.table tn ts, "_t0")]⟩ =
      Except.ok ("(SELECT COUNT(*) FROM " ++
          ("(SELECT * FROM " ++
            ("(SELECT " ++ tableColsSql cs ++ " FROM " ++ dquote cn ++ ") AS " ++ "_t1") ++
            " WHERE " ++
            ("(" ++ ("_t1." ++ dquote f) ++ " = " ++ ("_t0." ++ dquote g) ++ ")") ++
            ") AS " ++ "_t1") ++ ")",
        ⟨2, [(Expr.filter (.table cn cs)
            (.eq (.field (.row (.table cn cs)) f) (.field (.row (.table tn ts)) g)), "_t1"),
          (Expr.table cn cs, "_t1"), (Expr.table tn ts, "_t0")]⟩) := by
    simp only [emitExpr_count_filter_unfold, hF, ok_bind, pure_eq_ok]
  have hfields : emitRecordFields
      (.cons "id" (.field (.row (.table tn ts)) g)
        (.cons "classCount" (.count (.filter (.table cn cs)
          (.eq (.field (.row (.table cn cs)) f) (.field (.row (.table tn ts)) g)))) .nil))
      "_t0" ⟨1, [(.table tn ts, "_t0")]⟩ =
      Except.ok (("_t0." ++ dquote g) ++ " AS " ++ dquote "id" ++ ", " ++
        (("(SELECT COUNT(*) FROM " ++
          ("(SELECT * FROM " ++
            ("(SELECT " ++ tableColsSql cs ++ " FROM " ++ dquote cn ++ ") AS " ++ "_t1") ++
            " WHERE " ++
            ("(" ++ ("_t1." ++ dquote f) ++ " = " ++ ("_t0." ++ dquote g) ++ ")") ++
            ") AS " ++ "_t1") ++ ")") ++
          " AS " ++ dquote "classCount"),
        ⟨2, [(Expr.filter (.table cn cs)
            (.eq (.field (.row (.table cn cs)) f) (.field (.row (.table tn ts)) g)), "_t1"),
          (Expr.table cn cs, "_t1"), (Expr.table tn ts, "_t0")]⟩) := by
    simp only [emitRecordFields_cons2_unfold, hfield1, ok_bind,
      emitRecordFields_cons1_unfold, hcount, pure_eq_ok]
  simp only [toSql_map_unfold, emitQuery_map_record_unfold, hT, ok_bind, hfields,
    freshAlias, pure_eq_ok, Except.map]
  all_goals rfl

/-- C1 witness: the scenario of the specification instantiated at
concrete Teachers and Classes tables. -/
theorem c1_outer_correlation_witness :
    toSql (.map (.table "Teachers" (.cons "id" .string .nil))
      (.record (.cons "id" (.field (.row (.table "Teachers" (.cons "id" .string .nil))) "id")
        (.cons "classCount" (.count (.filter
          (.table "Classes" (.cons "id" .string (.cons "teacher_id" .string .nil)))
          (.eq (.field (.row (.table "Classes"
              (.cons "id" .string (.cons "teacher_id" .string .nil)))) "teacher_id")
            (.field (.row (.table "Teachers" (.cons "id" .string .nil))) "id")))) .nil)))) =
    Except.ok ("(SELECT " ++
      (("_t0." ++ dquote "id") ++ " AS " ++ dquote "id" ++ ", " ++
        (("(SELECT COUNT(*) FROM " ++
          ("(SELECT * FROM " ++
            ("(SELECT " ++
              tableColsSql (.cons "id" .string (.cons "teacher_id" .string .nil)) ++
              " FROM " ++ dquote "Classes" ++ ") AS " ++ "_t1") ++
            " WHERE " ++
            ("(" ++ ("_t1." ++ dquote "teacher_id") ++ " = " ++ ("_t0." ++ dquote "id") ++
              ")") ++
            ") AS " ++ "_t1") ++ ")") ++
          " AS " ++ dquote "classCount")) ++
      " FROM " ++
      ("(SELECT " ++ tableColsSql (.cons "id" .string .nil) ++ " FROM " ++
        dquote "Teachers" ++ ") AS " ++ "_t0") ++
      ") AS " ++ "_t2") :=
  c1_outer_correlation "Teachers" "Classes" "id" "teacher_id" (.cons "id" .string .nil)
    (.cons "id" .string (.cons "teacher_id" .string .nil)) (by decide)

theorem emitQuery_map_row_unfold0 (src r : Expr) (c : Ctx) :
    emitQuery (.map src (.row r)) c = (do
      let (srcSql, srcAlias, c1) ← emitQuery src c
      pure (srcSql, srcAlias, c1)) := rfl

/-- The identity-projection pass-through of `map`: the source's SQL and
alias are returned unchanged. -/
theorem emitQuery_map_row_unfold (src r : Expr) (c : Ctx) :
    emitQuery (.map src (.row r)) c = emitQuery src c := by
  rw [emitQuery_map_row_unfold0]
  cases h : emitQuery src c with
  | error m => rfl
  | ok v =>
    obtain ⟨s, a1, c1⟩ := v
    rfl

theorem emitQuery_map_scalar_unfold (src proj : Expr) (c : Ctx)
    (h1 : isRowNode proj = false) (h2 : isRecordNode proj = false) :
    emitQuery (.map src proj) c = (do
      let (srcSql, srcAlias, c1) ← emitQuery src c
      let (scalarSql, c2) ← emitExpr proj srcAlias c1
      let (als, c3) := freshAlias c2
      pure ("(SELECT " ++ scalarSql ++ " AS value FROM " ++ srcSql ++ ") AS " ++ als, als, c3)) := by
  cases proj <;> first
    | rfl
    | simp_all [isRowNode, isRecordNode]

theorem emitQuery_set_op_unfold (op : SetOpKind) (l r : Expr) (c : Ctx) :
    emitQuery (.set_op op l r) c = (do
      let (leftSql, leftAlias, c1) ← emitQuery l c
      let (rightSql, _, c2) ← emitQuery r c1
      pure ("(" ++ leftSql ++ " " ++ setOpSql op ++ " " ++ rightSql ++ ")", leftAlias, c2)) := rfl

theorem emitQuery_group_by_unfold (src key : Expr) (c : Ctx) :
    emitQuery (.group_by src key) c = (do
      let (srcSql, als, c1) ← emitQuery src c
      let (keyExpr, c2) ← emitExpr key als c1
      pure ("(SELECT " ++ keyExpr ++ " AS key, json_agg(" ++ als ++ ") AS vals FROM " ++
        srcSql ++ " GROUP BY " ++ keyExpr ++ ") AS " ++ als, als, c2)) := rfl

theorem emitQuery_flat_map_unfold (src body : Expr) (c : Ctx) :
    emitQuery (.flat_map src body) c = (do
      let (sourceSql, _, c1) ← emitQuery src c
      let (flatMapSql, fmAlias, c2) ← emitQuery body c1
      let (als, c3) := freshAlias c2
      pure ("(SELECT " ++ fmAlias ++ ".* FROM " ++ sourceSql ++ ", LATERAL " ++ flatMapSql ++
        ") AS " ++ als, als, c3)) := rfl

theorem emitExpr_first_unfold (src : Expr) (a : String) (c : Ctx) :
    emitExpr (.first src) a c = (do
      let (srcSql, c1) ← emitExpr src a c
      pure ("(SELECT * FROM " ++ srcSql ++ " LIMIT 1)", c1)) := rfl

theorem emitExpr_math_unfold (op : MathOp) (l r : Expr) (a : String) (c : Ctx) :
    emitExpr (.math_op op l r) a c = (do
      let (ls, c1) ← emitExpr l a c
      let (rs, c2) ← emitExpr r a c1
      pure ("(" ++ ls ++ mathOpSql op ++ rs ++ ")", c2)) := rfl

theorem emitExpr_cmp_unfold (op : CmpOp) (l r : Expr) (a : String) (c : Ctx) :
    emitExpr (.comparison_op op l r) a c = (do
      let (ls, c1) ← emitExpr l a c
      let (rs, c2) ← emitExpr r a c1
      pure ("(" ++ ls ++ cmpOpSql op ++ rs ++ ")", c2)) := rfl

theorem emitExpr_not_unfold (e : Expr) (a : String) (c : Ctx) :
    emitExpr (.not e) a c = (do
      let (es, c1) ← emitExpr e a c
      pure ("(NOT " ++ es ++ ")", c1)) := rfl

theorem emitExpr_count_unfold (src : Expr) (a : String) (c : Ctx) :
    emitExpr (.count src) a c =
      (if isFieldOrRow src then do
        let (fieldSql, c1) ← emitExpr src a c
        pure ("COALESCE(json_array_length(" ++ fieldSql ++ "), 0)", c1)
      else do
        let (srcSql, _, c1) ← emitQuery src c
        pure ("(SELECT COUNT(*) FROM " ++ srcSql ++ ")", c1)) := rfl

theorem emitExpr_nw_unfold (op : NWOp) (src : Expr) (a : String) (c : Ctx) :
    emitExpr (.number_window op src) a c = (do
      let (srcSql, srcAlias, c1) ← emitQuery src c
      pure ("(SELECT " ++ nwOpSql op ++ "(" ++ srcAlias ++ ".value) FROM " ++ srcSql ++ ")",
        c1)) := rfl

theorem emitExpr_sw_unfold (op : SWOp) (src : Expr) (a : String) (c : Ctx) :
    emitExpr (.scalar_window op src) a c = (do
      let (srcSql, srcAlias, c1) ← emitQuery src c
      pure ("(SELECT " ++ swOpSql op ++ "(" ++ srcAlias ++ ".value) FROM " ++ srcSql ++ ")",
        c1)) := rfl

theorem emitExpr_record_unfold (fs : Fields) (a : String) (c : Ctx) :
    emitExpr (.record fs) a c = (do
      let (pairs, c1) ← emitJsonPairs fs a c
      pure ("json_build_object(" ++ pairs ++ ")", c1)) := rfl

theorem emitExpr_filter_inlined (src p : Expr) (a : String) (c : Ctx) :
    emitExpr (.filter src p) a c = (do
      let (srcSql, als, c1) ← emitQuery src c
      let c2 := registerAlias c1 (.filter src p) als
      let (exprSql, c3) ← emitExpr p als c2
      pure (jsonAggWrap als ("(SELECT * FROM " ++ srcSql ++ " WHERE " ++ exprSql ++ ") AS " ++
        als), c3)) := rfl

theorem emitExpr_sort_inlined (src ord : Expr) (a : String) (c : Ctx) :
    emitExpr (.sort src ord) a c = (do
      let (srcSql, als, c1) ← emitQuery src c
      let (orderingSql, c2) ← emitExpr ord als c1
      pure (jsonAggWrap als ("(SELECT * FROM " ++ srcSql ++ " ORDER BY " ++ orderingSql ++
        ") AS " ++ als), c2)) := rfl

theorem emitExpr_limit_inlined (src n : Expr) (a : String) (c : Ctx) :
    emitExpr (.limit src n) a c = (do
      let (srcSql, als, c1) ← emitQuery src c
      let (limitSql, c2) ← emitExpr n als c1
      pure (jsonAggWrap als ("(SELECT * FROM " ++ srcSql ++ " LIMIT " ++ limitSql ++ ") AS " ++
        als), c2)) := rfl

theorem emitExpr_offset_inlined (src n : Expr) (a : String) (c : Ctx) :
    emitExpr (.offset src n) a c = (do
      let (srcSql, als, c1) ← emitQuery src c
      let (offsetSql, c2) ← emitExpr n als c1
      pure (jsonAggWrap als ("(SELECT * FROM " ++ srcSql ++ " OFFSET " ++ offsetSql ++
        ") AS " ++ als), c2)) := rfl

theorem emitExpr_set_op_inlined (op : SetOpKind) (l r : Expr) (a : String) (c : Ctx) :
    emitExpr (.set_op op l r) a c = (do
      let (leftSql, leftAlias, c1) ← emitQuery l c
      let (rightSql, _, c2) ← emitQuery r c1
      pure (jsonAggWrap leftAlias ("(" ++ leftSql ++ " " ++ setOpSql op ++ " " ++ rightSql ++
        ")"), c2)) := rfl

theorem emitExpr_group_by_inlined (src key : Expr) (a : String) (c : Ctx) :
    emitExpr (.group_by src key) a c = (do
      let (srcSql, als, c1) ← emitQuery src c
      let (keyExpr, c2) ← emitExpr key als c1
      pure (jsonAggWrap als ("(SELECT " ++ keyExpr ++ " AS key, json_agg(" ++ als ++
        ") AS vals FROM " ++ srcSql ++ " GROUP BY " ++ keyExpr ++ ") AS " ++ als), c2)) := rfl

theorem emitExpr_flat_map_inlined (src body : Expr) (a : String) (c : Ctx) :
    emitExpr (.flat_map src body) a c = (do
      let (sourceSql, _, c1) ← emitQuery src c
      let (flatMapSql, fmAlias, c2) ← emitQuery body c1
      let (als, c3) := freshAlias c2
      pure (jsonAggWrap als ("(SELECT " ++ fmAlias ++ ".* FROM " ++ sourceSql ++ ", LATERAL " ++
        flatMapSql ++ ") AS " ++ als), c3)) := rfl

theorem emitExpr_map_row_inlined (src r : Expr) (a : String) (c : Ctx) :
    emitExpr (.map src (.row r)) a c = (do
      let (srcSql, srcAlias, c1) ← emitQuery src c
      pure (jsonAggWrap srcAlias srcSql, c1)) := rfl

theorem emitExpr_map_record_inlined (src : Expr) (fs : Fields) (a : String) (c : Ctx) :
    emitExpr (.map src (.record fs)) a c = (do
      let (srcSql, srcAlias, c1) ← emitQuery src c
      let (fieldsSql, c2) ← emitRecordFields fs srcAlias c1
      let (als, c3) := freshAlias c2
      pure (jsonAggWrap als ("(SELECT " ++ fieldsSql ++ " FROM " ++ srcSql ++ ") AS " ++ als),
        c3)) := rfl

theorem emitExpr_map_scalar_inlined (src proj : Expr) (a : String) (c : Ctx)
    (h1 : isRowNode proj = false) (h2 : isRecordNode proj = false) :
    emitExpr (.map src proj) a c = (do
      let (srcSql, srcAlias, c1) ← emitQuery src c
      let (scalarSql, c2) ← emitExpr proj srcAlias c1
      let (als, c3) := freshAlias c2
      pure (jsonAggWrap als ("(SELECT " ++ scalarSql ++ " AS value FROM " ++ srcSql ++
        ") AS " ++ als), c3)) := by
  cases proj <;> first
    | rfl
    | simp_all [isRowNode, isRecordNode]

/-- In the source, `emitExpr` handles every query-typed node by calling
`emitQuery` on the same node and wrapping the result in the `json_agg`
aggregation.  This proves the inlined per-constructor copies in this
embedding are exactly that delegation. -/
theorem emitExpr_query_delegates (e : Expr) (a : String) (c : Ctx)
    (h : isQueryType e = true) :
    emitExpr e a c = (do
      let (srcSql, srcAlias, c1) ← emitQuery e c
      pure (jsonAggWrap srcAlias srcSql, c1)) := by
  cases e with
  | table n ts => rfl
  | array vs => cases vs <;> rfl
  | filter src p =>
    rw [emitExpr_filter_inlined, emitQuery_filter_unfold]
    cases hs : emitQuery src c with
    | error m => rfl
    | ok v =>
      obtain ⟨ssql, sa, c1⟩ := v
      simp only [ok_bind]
      cases he : emitExpr p sa (registerAlias c1 (.filter src p) sa) with
      | error m => rfl
      | ok w => rfl
  | sort src ord =>
    rw [emitExpr_sort_inlined, emitQuery_sort_unfold]
    cases hs : emitQuery src c with
    | error m => rfl
    | ok v =>
      obtain ⟨ssql, sa, c1⟩ := v
      simp only [ok_bind]
      cases he : emitExpr ord sa c1 with
      | error m => rfl
      | ok w => rfl
  | limit src n =>
    rw [emitExpr_limit_inlined, emitQuery_limit_unfold]
    cases hs : emitQuery src c with
    | error m => rfl
    | ok v =>
      obtain ⟨ssql, sa, c1⟩ := v
      simp only [ok_bind]
      cases he : emitExpr n sa c1 with
      | error m => rfl
      | ok w => rfl
  | offset src n =>
    rw [emitExpr_offset_inlined, emitQuery_offset_unfold]
    cases hs : emitQuery src c with
    | error m => rfl
    | ok v =>
      obtain ⟨ssql, sa, c1⟩ := v
      simp only [ok_bind]
      cases he : emitExpr n sa c1 with
      | error m => rfl
      | ok w => rfl
  | set_op op l r =>
    rw [emitExpr_set_op_inlined, emitQuery_set_op_unfold]
    cases hs : emitQuery l c with
    | error m => rfl
    | ok v =>
      obtain ⟨lsql, la, c1⟩ := v
      simp only [ok_bind]
      cases hr : emitQuery r c1 with
      | error m => rfl
      | ok w => rfl
  | group_by src key =>
    rw [emitExpr_group_by_inlined, emitQuery_group_by_unfold]
    cases hs : emitQuery src c with
    | error m => rfl
    | ok v =>
      obtain ⟨ssql, sa, c1⟩ := v
      simp only [ok_bind]
      cases he : emitExpr key sa c1 with
      | error m => rfl
      | ok w => rfl
  | flat_map src body =>
    rw [emitExpr_flat_map_inlined, emitQuery_flat_map_unfold]
    cases hs : emitQuery src c with
    | error m => rfl
    | ok v =>
      obtain ⟨ssql, sa, c1⟩ := v
      simp only [ok_bind]
      cases hb : emitQuery body c1 with
      | error m => rfl
      | ok w => rfl
  | map src proj =>
    cases proj with
    | row rr =>
      rw [emitExpr_map_row_inlined, emitQuery_map_row_unfold0]
      cases hs : emitQuery src c with
      | error m => rfl
      | ok v =>
        obtain ⟨ssql, sa, c1⟩ := v
        rfl
    | record fs =>
      rw [emitExpr_map_record_inlined, emitQuery_map_record_unfold]
      cases hs : emitQuery src c with
      | error m => rfl
      | ok v =>
        obtain ⟨ssql, sa, c1⟩ := v
        simp only [ok_bind]
        cases hf : emitRecordFields fs sa c1 with
        | error m => rfl
        | ok w => rfl
    | _ =>
      rw [emitExpr_map_scalar_inlined _ _ _ _ (by rfl) (by rfl),
        emitQuery_map_scalar_unfold _ _ _ (by rfl) (by rfl)]
      cases hs : emitQuery src c with
      | error m => rfl
      | ok v =>
        obtain ⟨ssql, sa, c1⟩ := v
        simp only [ok_bind]
        cases he : emitExpr _ sa c1 with
        | error m => rfl
        | ok w => rfl
  | _ => simp [isQueryType] at h

theorem sizeE_pos (e : Expr) : 1 ≤ sizeE e := by
  cases e <;> simp [sizeE] <;> omega

theorem sizeF_pos (fs : Fields) : 1 ≤ sizeF fs := by
  cases fs <;> simp [sizeF] <;> omega

theorem bindOk {A B : Type} (x : Except String A) (f : A → Except String B) (r : B)
    (h : x >>= f = Except.ok r) : ∃ v, x = Except.ok v ∧ f v = Except.ok r := by
  cases x with
  | error m => exact absurd h (fun hh => Except.noConfusion hh)
  | ok v => exact ⟨v, rfl, h⟩

theorem append_merge (a b c2 : String) (h : a ++ b = c2) (x : String) :
    a ++ (b ++ x) = c2 ++ x := by
  rw [← String.append_assoc, h]

theorem mergeSelSp (x : String) : "(SELECT" ++ (" " ++ x) = "(SELECT " ++ x :=
  append_merge _ _ _ rfl x

theorem mergeSelStar (x : String) :
    "(SELECT" ++ (" * FROM " ++ x) = "(SELECT * FROM " ++ x :=
  append_merge _ _ _ rfl x

theorem mergeEmptyArr (x : String) :
    "(SELECT" ++ (" * FROM (SELECT NULL) AS empty WHERE FALSE" ++ (") AS " ++ x)) =
      "(SELECT * FROM (SELECT NULL) AS empty WHERE FALSE) AS " ++ x := by
  rw [append_merge "(SELECT" " * FROM (SELECT NULL) AS empty WHERE FALSE"
    "(SELECT * FROM (SELECT NULL) AS empty WHERE FALSE" rfl,
    append_merge "(SELECT * FROM (SELECT NULL) AS empty WHERE FALSE" ") AS "
    "(SELECT * FROM (SELECT NULL) AS empty WHERE FALSE) AS " rfl]

theorem mergeValuesFront (x : String) :
    "(SELECT" ++ (" * FROM (VALUES " ++ x) = "(SELECT * FROM (VALUES " ++ x :=
  append_merge _ _ _ rfl x

theorem mergeValuesBack (x : String) :
    ") AS t(value)" ++ (") AS " ++ x) = ") AS t(value)) AS " ++ x :=
  append_merge _ _ _ rfl x

/-- Only the ten query-typed node kinds can come out of `emitQuery`
successfully; anything else throws `Unknown query type`. -/
theorem emitQuery_ok_isQueryType (q : Expr) (c : Ctx) (r : String × String × Ctx)
    (h : emitQuery q c = Except.ok r) : isQueryType q = true := by
  cases q <;> first
    | rfl
    | exact absurd h (fun hh => Except.noConfusion hh)

/-- Every alias returned by `emitQuery` originates in the `_tN` alias
generator. -/
theorem emitQuery_alias_shape :
    ∀ N q c s a c2, sizeE q ≤ N → emitQuery q c = Except.ok (s, a, c2) →
      ∃ n : Nat, a = "_t" ++ toString n := by
  intro N
  induction N with
  | zero =>
    intro q c s a c2 hsz h
    have := sizeE_pos q
    omega
  | succ N ih =>
    intro q c s a c2 hsz h
    cases q with
    | table tname ts =>
      obtain ⟨k, m⟩ := c
      rw [emitQuery_table_unfold] at h
      simp only [Except.ok.injEq, Prod.mk.injEq] at h
      exact ⟨k, h.2.1.symm⟩
    | filter src p =>
      rw [emitQuery_filter_unfold] at h
      obtain ⟨⟨ssql, sa, c1⟩, hs, h⟩ := bindOk _ _ _ h
      obtain ⟨⟨psql, c3⟩, he, h⟩ := bindOk _ _ _ h
      simp only [pure_eq_ok, Except.ok.injEq, Prod.mk.injEq] at h
      have hsz2 : sizeE src ≤ N := by
        have := sizeE_pos p
        simp only [sizeE] at hsz
        omega
      obtain ⟨n, hn⟩ := ih src c ssql sa c1 hsz2 hs
      exact ⟨n, h.2.1 ▸ hn⟩
    | sort src ord =>
      rw [emitQuery_sort_unfold] at h
      obtain ⟨⟨ssql, sa, c1⟩, hs, h⟩ := bindOk _ _ _ h
      obtain ⟨⟨osql, c3⟩, he, h⟩ := bindOk _ _ _ h
      simp only [pure_eq_ok, Except.ok.injEq, Prod.mk.injEq] at h
      have hsz2 : sizeE src ≤ N := by
        have := sizeE_pos ord
        simp only [sizeE] at hsz
        omega
      obtain ⟨n, hn⟩ := ih src c ssql sa c1 hsz2 hs
      exact ⟨n, h.2.1 ▸ hn⟩
    | limit src nn =>
      rw [emitQuery_limit_unfold] at h
      obtain ⟨⟨ssql, sa, c1⟩, hs, h⟩ := bindOk _ _ _ h
      obtain ⟨⟨nsql, c3⟩, he, h⟩ := bindOk _ _ _ h
      simp only [pure_eq_ok, Except.ok.injEq, Prod.mk.injEq] at h
      have hsz2 : sizeE src ≤ N := by
        have := sizeE_pos nn
        simp only [sizeE] at hsz
        omega
      obtain ⟨n, hn⟩ := ih src c ssql sa c1 hsz2 hs
      exact ⟨n, h.2.1 ▸ hn⟩
    | offset src nn =>
      rw [emitQuery_offset_unfold] at h
      obtain ⟨⟨ssql, sa, c1⟩, hs, h⟩ := bindOk _ _ _ h
      obtain ⟨⟨nsql, c3⟩, he, h⟩ := bindOk _ _ _ h
      simp only [pure_eq_ok, Except.ok.injEq, Prod.mk.injEq] at h
      have hsz2 : sizeE src ≤ N := by
        have := sizeE_pos nn
        simp only [sizeE] at hsz
        omega
      obtain ⟨n, hn⟩ := ih src c ssql sa c1 hsz2 hs
      exact ⟨n, h.2.1 ▸ hn⟩
    | set_op op l r =>
      rw [emitQuery_set_op_unfold] at h
      obtain ⟨⟨lsql, la, c1⟩, hl, h⟩ := bindOk _ _ _ h
      obtain ⟨⟨rsql, ra, c3⟩, hr, h⟩ := bindOk _ _ _ h
      simp only [pure_eq_ok, Except.ok.injEq, Prod.mk.injEq] at h
      have hsz2 : sizeE l ≤ N := by
        have := sizeE_pos r
        simp only [sizeE] at hsz
        omega
      obtain ⟨n, hn⟩ := ih l c lsql la c1 hsz2 hl
      exact ⟨n, h.2.1 ▸ hn⟩
    | group_by src key =>
      rw [emitQuery_group_by_unfold] at h
      obtain ⟨⟨ssql, sa, c1⟩, hs, h⟩ := bindOk _ _ _ h
      obtain ⟨⟨ksql, c3⟩, he, h⟩ := bindOk _ _ _ h
      simp only [pure_eq_ok, Except.ok.injEq, Prod.mk.injEq] at h
      have hsz2 : sizeE src ≤ N := by
        have := sizeE_pos key
        simp only [sizeE] at hsz
        omega
      obtain ⟨n, hn⟩ := ih src c ssql sa c1 hsz2 hs
      exact ⟨n, h.2.1 ▸ hn⟩
    | flat_map src body =>
      rw [emitQuery_flat_map_unfold] at h
      obtain ⟨⟨ssql, sa, c1⟩, hs, h⟩ := bindOk _ _ _ h
      obtain ⟨⟨fsql, fa, c3⟩, hb, h⟩ := bindOk _ _ _ h
      simp only [freshAlias, pure_eq_ok, Except.ok.injEq, Prod.mk.injEq] at h
      exact ⟨c3.counter, h.2.1.symm⟩
    | map src proj =>
      cases proj with
      | row rr =>
        rw [emitQuery_map_row_unfold] at h
        have hsz2 : sizeE src ≤ N := by
          simp only [sizeE] at hsz
          omega
        exact ih src c s a c2 hsz2 h
      | record fs =>
        rw [emitQuery_map_record_unfold] at h
        obtain ⟨⟨ssql, sa, c1⟩, hs, h⟩ := bindOk _ _ _ h
        obtain ⟨⟨fl, c3⟩, hf, h⟩ := bindOk _ _ _ h
        simp only [freshAlias, pure_eq_ok, Except.ok.injEq, Prod.mk.injEq] at h
        exact ⟨c3.counter, h.2.1.symm⟩
      | _ =>
        rw [emitQuery_map_scalar_unfold _ _ _ (by rfl) (by rfl)] at h
        obtain ⟨⟨ssql, sa, c1⟩, hs, h⟩ := bindOk _ _ _ h
        obtain ⟨⟨sc, c3⟩, he, h⟩ := bindOk _ _ _ h
        simp only [freshAlias, pure_eq_ok, Except.ok.injEq, Prod.mk.injEq] at h
        exact ⟨c3.counter, h.2.1.symm⟩
    | array vs =>
      obtain ⟨k, m⟩ := c
      cases vs with
      | nil =>
        rw [show emitQuery (.array []) ⟨k, m⟩ =
          Except.ok ("(SELECT * FROM (SELECT NULL) AS empty WHERE FALSE) AS " ++
            ("_t" ++ toString k), "_t" ++ toString k, ⟨k + 1, m⟩) from rfl] at h
        simp only [Except.ok.injEq, Prod.mk.injEq] at h
        exact ⟨k, h.2.1.symm⟩
      | cons v rest =>
        rw [show emitQuery (.array (v :: rest)) ⟨k, m⟩ =
          Except.ok ("(SELECT * FROM (VALUES " ++ arrayValuesSql (v :: rest) ++
            ") AS t(value)) AS " ++ ("_t" ++ toString k), "_t" ++ toString k,
            ⟨k + 1, m⟩) from rfl] at h
        simp only [Except.ok.injEq, Prod.mk.injEq] at h
        exact ⟨k, h.2.1.symm⟩
    | _ => exact absurd h (fun hh => Except.noConfusion hh)

/-- Successful `emitQuery` output for any query node that is not a
`set_op` (nor an identity-`map` chain onto one) is an aliased
`(SELECT …) AS _tN` subquery whose trailing alias is the returned
alias. -/
theorem emitQuery_select_shape :
    ∀ N q c s a c2, sizeE q ≤ N → isQueryType q = true → hasSetOpSpine q = false →
      emitQuery q c = Except.ok (s, a, c2) →
      ∃ mid : String, ∃ n : Nat,
        s = "(SELECT" ++ (mid ++ (") AS " ++ ("_t" ++ toString n))) ∧
        a = "_t" ++ toString n := by
  intro N
  induction N with
  | zero =>
    intro q c s a c2 hsz hq hsp h
    have := sizeE_pos q
    omega
  | succ N ih =>
    intro q c s a c2 hsz hq hsp h
    cases q with
    | table tname ts =>
      obtain ⟨k, m⟩ := c
      rw [emitQuery_table_unfold] at h
      simp only [Except.ok.injEq, Prod.mk.injEq] at h
      refine ⟨" " ++ (tableColsSql ts ++ (" FROM " ++ dquote tname)), k, ?_, h.2.1.symm⟩
      rw [← h.1]
      simp only [String.append_assoc, mergeSelSp]
    | filter src p =>
      rw [emitQuery_filter_unfold] at h
      obtain ⟨⟨ssql, sa, c1⟩, hs, h⟩ := bindOk _ _ _ h
      obtain ⟨⟨psql, c3⟩, he, h⟩ := bindOk _ _ _ h
      simp only [pure_eq_ok, Except.ok.injEq, Prod.mk.injEq] at h
      obtain ⟨n, hn⟩ := emitQuery_alias_shape (sizeE src) src c ssql sa c1 (by omega) hs
      refine ⟨" * FROM " ++ (ssql ++ (" WHERE " ++ psql)), n, ?_, h.2.1.symm.trans hn⟩
      rw [← h.1, hn]
      simp only [String.append_assoc, mergeSelStar]
    | sort src ord =>
      rw [emitQuery_sort_unfold] at h
      obtain ⟨⟨ssql, sa, c1⟩, hs, h⟩ := bindOk _ _ _ h
      obtain ⟨⟨osql, c3⟩, he, h⟩ := bindOk _ _ _ h
      simp only [pure_eq_ok, Except.ok.injEq, Prod.mk.injEq] at h
      obtain ⟨n, hn⟩ := emitQuery_alias_shape (sizeE src) src c ssql sa c1 (by omega) hs
      refine ⟨" * FROM " ++ (ssql ++ (" ORDER BY " ++ osql)), n, ?_, h.2.1.symm.trans hn⟩
      rw [← h.1, hn]
      simp only [String.append_assoc, mergeSelStar]
    | limit src nn =>
      rw [emitQuery_limit_unfold] at h
      obtain ⟨⟨ssql, sa, c1⟩, hs, h⟩ := bindOk _ _ _ h
      obtain ⟨⟨nsql, c3⟩, he, h⟩ := bindOk _ _ _ h
      simp only [pure_eq_ok, Except.ok.injEq, Prod.mk.injEq] at h
      obtain ⟨n, hn⟩ := emitQuery_alias_shape (sizeE src) src c ssql sa c1 (by omega) hs
      refine ⟨" * FROM " ++ (ssql ++ (" LIMIT " ++ nsql)), n, ?_, h.2.1.symm.trans hn⟩
      rw [← h.1, hn]
      simp only [String.append_assoc, mergeSelStar]
    | offset src nn =>
      rw [emitQuery_offset_unfold] at h
      obtain ⟨⟨ssql, sa, c1⟩, hs, h⟩ := bindOk _ _ _ h
      obtain ⟨⟨nsql, c3⟩, he, h⟩ := bindOk _ _ _ h
      simp only [pure_eq_ok, Except.ok.injEq, Prod.mk.injEq] at h
      obtain ⟨n, hn⟩ := emitQuery_alias_shape (sizeE src) src c ssql sa c1 (by omega) hs
      refine ⟨" * FROM " ++ (ssql ++ (" OFFSET " ++ nsql)), n, ?_, h.2.1.symm.trans hn⟩
      rw [← h.1, hn]
      simp only [String.append_assoc, mergeSelStar]
    | set_op op l r => simp [hasSetOpSpine] at hsp
    | group_by src key =>
      rw [emitQuery_group_by_unfold] at h
      obtain ⟨⟨ssql, sa, c1⟩, hs, h⟩ := bindOk _ _ _ h
      obtain ⟨⟨ksql, c3⟩, he, h⟩ := bindOk _ _ _ h
      simp only [pure_eq_ok, Except.ok.injEq, Prod.mk.injEq] at h
      obtain ⟨n, hn⟩ := emitQuery_alias_shape (sizeE src) src c ssql sa c1 (by omega) hs
      refine ⟨" " ++ (ksql ++ (" AS key, json_agg(" ++ (("_t" ++ toString n) ++
        (") AS vals FROM " ++ (ssql ++ (" GROUP BY " ++ ksql)))))), n, ?_,
        h.2.1.symm.trans hn⟩
      rw [← h.1, hn]
      simp only [String.append_assoc, mergeSelSp]
    | flat_map src body =>
      rw [emitQuery_flat_map_unfold] at h
      obtain ⟨⟨ssql, sa, c1⟩, hs, h⟩ := bindOk _ _ _ h
      obtain ⟨⟨fsql, fa, c3⟩, hb, h⟩ := bindOk _ _ _ h
      simp only [freshAlias, pure_eq_ok, Except.ok.injEq, Prod.mk.injEq] at h
      refine ⟨" " ++ (fa ++ (".* FROM " ++ (ssql ++ (", LATERAL " ++ fsql)))),
        c3.counter, ?_, h.2.1.symm⟩
      rw [← h.1]
      simp only [String.append_assoc, mergeSelSp]
    | map src proj =>
      cases proj with
      | row rr =>
        rw [emitQuery_map_row_unfold] at h
        have hq2 := emitQuery_ok_isQueryType src c (s, a, c2) h
        have hsp2 : hasSetOpSpine src = false := hsp
        have hsz2 : sizeE src ≤ N := by
          simp only [sizeE] at hsz
          omega
        exact ih src c s a c2 hsz2 hq2 hsp2 h
      | record fs =>
        rw [emitQuery_map_record_unfold] at h
        obtain ⟨⟨ssql, sa, c1⟩, hs, h⟩ := bindOk _ _ _ h
        obtain ⟨⟨fl, c3⟩, hf, h⟩ := bindOk _ _ _ h
        simp only [freshAlias, pure_eq_ok, Except.ok.injEq, Prod.mk.injEq] at h
        refine ⟨" " ++ (fl ++ (" FROM " ++ ssql)), c3.counter, ?_, h.2.1.symm⟩
        rw [← h.1]
        simp only [String.append_assoc, mergeSelSp]
      | _ =>
        rw [emitQuery_map_scalar_unfold _ _ _ (by rfl) (by rfl)] at h
        obtain ⟨⟨ssql, sa, c1⟩, hs, h⟩ := bindOk _ _ _ h
        obtain ⟨⟨sc, c3⟩, he, h⟩ := bindOk _ _ _ h
        simp only [freshAlias, pure_eq_ok, Except.ok.injEq, Prod.mk.injEq] at h
        refine ⟨" " ++ (sc ++ (" AS value FROM " ++ ssql)), c3.counter, ?_, h.2.1.symm⟩
        rw [← h.1]
        simp only [String.append_assoc, mergeSelSp]
    | array vs =>
      obtain ⟨k, m⟩ := c
      cases vs with
      | nil =>
        rw [show emitQuery (.array []) ⟨k, m⟩ =
          Except.ok ("(SELECT * FROM (SELECT NULL) AS empty WHERE FALSE) AS " ++
            ("_t" ++ toString k), "_t" ++ toString k, ⟨k + 1, m⟩) from rfl] at h
        simp only [Except.ok.injEq, Prod.mk.injEq] at h
        refine ⟨" * FROM (SELECT NULL) AS empty WHERE FALSE", k, ?_, h.2.1.symm⟩
        rw [← h.1]
        rw [show ("(SELECT" : String) ++ (" * FROM (SELECT NULL) AS empty WHERE FALSE" ++
          (") AS " ++ ("_t" ++ toString k))) =
          "(SELECT * FROM (SELECT NULL) AS empty WHERE FALSE) AS " ++ ("_t" ++ toString k)
          from mergeEmptyArr _]
      | cons v rest =>
        rw [show emitQuery (.array (v :: rest)) ⟨k, m⟩ =
          Except.ok ("(SELECT * FROM (VALUES " ++ arrayValuesSql (v :: rest) ++
            ") AS t(value)) AS " ++ ("_t" ++ toString k), "_t" ++ toString k,
            ⟨k + 1, m⟩) from rfl] at h
        simp only [Except.ok.injEq, Prod.mk.injEq] at h
        refine ⟨" * FROM (VALUES " ++ (arrayValuesSql (v :: rest) ++ ") AS t(value)"), k,
          ?_, h.2.1.symm⟩
        rw [← h.1]
        simp only [String.append_assoc, mergeValuesFront, mergeValuesBack]
    | _ => simp [isQueryType] at hq

theorem toSql_query (q : Expr) (hq : isQueryType q = true) :
    toSql q = (emitQuery q ⟨0, []⟩).map (fun r => r.1) := by
  simp [toSql, hq]

theorem toSql_scalar (q : Expr) (hq : isQueryType q = false) :
    toSql q = (emitExpr q "" ⟨0, []⟩).map (fun r => r.1) := by
  simp [toSql, hq]

/-- C6 counterexample: at a concrete `set_op` node, `toSql` does not
return a string of the aliased form `(SELECT …) AS _tN` (its output is
the unaliased `(<left> UNION <right>)`), so the claim's "including
SetOp nodes" is false on the code. -/
theorem c6_set_op_not_aliased_counterexample :
    ¬ ∃ mid : String, ∃ n : Nat,
      toSql (.set_op .union (.table "T" (.cons "a" .string .nil))
        (.table "U" (.cons "a" .string .nil))) =
      Except.ok ("(SELECT" ++ (mid ++ (") AS " ++ ("_t" ++ toString n)))) := by
  rintro ⟨mid, n, h⟩
  have hv : toSql (.set_op .union (.table "T" (.cons "a" .string .nil))
      (.table "U" (.cons "a" .string .nil))) =
      Except.ok "((SELECT \"a\" FROM \"T\") AS _t0 UNION (SELECT \"a\" FROM \"U\") AS _t1)" := by
    decide
  rw [hv] at h
  injection h with h2
  have hd := congrArg String.data h2
  rw [String.data_append] at hd
  have hL : ("((SELECT \"a\" FROM \"T\") AS _t0 UNION (SELECT \"a\" FROM \"U\") AS _t1)" :
      String).data.get? 1 = some '(' := by decide
  rw [hd] at hL
  have hR : (("(SELECT" : String).data ++
      (mid ++ (") AS " ++ ("_t" ++ toString n))).data).get? 1 = some 'S' := rfl
  rw [hR] at hL
  exact absurd hL (by decide)

/-- C6 (amended): for every Array-valued (query-typed) IR node other
than a `set_op` (or an identity-`map` chain onto one), a successful
`toSql` is a parenthesized aliased subquery `(SELECT …) AS _tN`; for
`SetOp` the emitted SQL is `(<left> <UNION|INTERSECT|EXCEPT> <right>)`
and the returned alias is taken from the left operand; for every
scalar-valued node `toSql` is the bare `emitExpr` output. -/
theorem c6_output_shape :
    (∀ q s, isQueryType q = true → hasSetOpSpine q = false →
      toSql q = Except.ok s →
      ∃ mid : String, ∃ n : Nat,
        s = "(SELECT" ++ (mid ++ (") AS " ++ ("_t" ++ toString n)))) ∧
    (∀ op l r c ls la c1 rs ra c2, emitQuery l c = Except.ok (ls, la, c1) →
      emitQuery r c1 = Except.ok (rs, ra, c2) →
      emitQuery (.set_op op l r) c =
        Except.ok ("(" ++ ls ++ " " ++ setOpSql op ++ " " ++ rs ++ ")", la, c2)) ∧
    (∀ e, isQueryType e = false → toSql e = (emitExpr e "" ⟨0, []⟩).map (fun r => r.1)) := by
  refine ⟨?_, ?_, ?_⟩
  · intro q s hq hsp h
    rw [toSql_query q hq] at h
    cases hqq : emitQuery q ⟨0, []⟩ with
    | error m =>
      rw [hqq] at h
      exact absurd h (fun hh => Except.noConfusion hh)
    | ok v =>
      obtain ⟨sql, als, c2⟩ := v
      rw [hqq] at h
      simp only [Except.map, Except.ok.injEq] at h
      obtain ⟨mid, n, h1, h2⟩ :=
        emitQuery_select_shape (sizeE q) q ⟨0, []⟩ sql als c2 (le_refl _) hq hsp hqq
      refine ⟨mid, n, ?_⟩
      rw [← h]
      exact h1
  · intro op l r c ls la c1 rs ra c2 hl hr
    rw [emitQuery_set_op_unfold, hl]
    simp only [ok_bind]
    rw [hr]
    simp only [ok_bind, pure_eq_ok]
  · intro e hq
    exact toSql_scalar e hq

/-- C6 witness: the three parts instantiated at a concrete table scan, a
concrete union, and a concrete scalar expression. -/
theorem c6_output_shape_witness :
    (∃ mid : String, ∃ n : Nat,
      ("(SELECT \"a\" FROM \"T\") AS _t0" : String) =
        "(SELECT" ++ (mid ++ (") AS " ++ ("_t" ++ toString n)))) ∧
    emitQuery (.set_op .union (.table "T" (.cons "a" .string .nil))
        (.table "U" (.cons "a" .string .nil))) ⟨0, []⟩ =
      Except.ok ("((SELECT \"a\" FROM \"T\") AS _t0 UNION (SELECT \"a\" FROM \"U\") AS _t1)",
        "_t0", ⟨2, [(.table "U" (.cons "a" .string .nil), "_t1"),
          (.table "T" (.cons "a" .string .nil), "_t0")]⟩) ∧
    toSql (.number 7) = (emitExpr (.number 7) "" ⟨0, []⟩).map (fun r => r.1) :=
  ⟨c6_output_shape.1 (.table "T" (.cons "a" .string .nil)) "(SELECT \"a\" FROM \"T\") AS _t0"
      (by decide) (by decide) (by decide),
    c6_output_shape.2.1 .union (.table "T" (.cons "a" .string .nil))
      (.table "U" (.cons "a" .string .nil)) ⟨0, []⟩
      "(SELECT \"a\" FROM \"T\") AS _t0" "_t0" ⟨1, [(.table "T" (.cons "a" .string .nil), "_t0")]⟩
      "(SELECT \"a\" FROM \"U\") AS _t1" "_t1" ⟨2, [(.table "U" (.cons "a" .string .nil), "_t1"),
        (.table "T" (.cons "a" .string .nil), "_t0")]⟩ (by decide) (by decide),
    c6_output_shape.2.2 (.number 7) (by decide)⟩

theorem toOption_ok {A : Type} (v : A) : (Except.ok v : Except String A).toOption = some v := rfl

theorem toOption_error {A : Type} (m : String) :
    (Except.error m : Except String A).toOption = none := rfl

theorem emap_ok {A B : Type} (f : A → B) (v : A) :
    (Except.ok v : Except String A).map f = Except.ok (f v) := rfl

theorem emap_error {A B : Type} (f : A → B) (m : String) :
    (Except.error m : Except String A).map f = Except.error m := rfl

theorem fmap_ok {A B : Type} (f : A → B) (v : A) :
    f <$> (Except.ok v : Except String A) = Except.ok (f v) := rfl

theorem fmap_error {A B : Type} (f : A → B) (m : String) :
    f <$> (Except.error m : Except String A) = Except.error m := rfl

theorem osome_bind {A B : Type} (v : A) (f : A → Option B) : some v >>= f = f v := rfl

theorem onone_bind {A B : Type} (f : A → Option B) : (none : Option A) >>= f = none := rfl

theorem ofmap_some {A B : Type} (f : A → B) (v : A) : f <$> some v = some (f v) := rfl

theorem ofmap_none {A B : Type} (f : A → B) : f <$> (none : Option A) = none := rfl

theorem toOption_map {A B : Type} (f : A → B) (x : Except String A) :
    (x.map f).toOption = Option.map f x.toOption := by
  cases x <;> rfl

theorem emitRecordFields_nil_unfold (a : String) (c : Ctx) :
    emitRecordFields .nil a c = Except.ok ("", c) := rfl

theorem emitRecordFields_cons_unfold (n : String) (v : Expr) (rest : Fields) (a : String)
    (c : Ctx) :
    emitRecordFields (.cons n v rest) a c = (do
      let (vs, c1) ← emitExpr v a c
      match rest with
      | .nil => pure (vs ++ " AS " ++ dquote n, c1)
      | .cons m w r2 => do
          let (restSql, c2) ← emitRecordFields (.cons m w r2) a c1
          pure (vs ++ " AS " ++ dquote n ++ ", " ++ restSql, c2)) := by
  cases rest <;> rfl

theorem emitJsonPairs_nil_unfold (a : String) (c : Ctx) :
    emitJsonPairs .nil a c = Except.ok ("", c) := rfl

theorem emitJsonPairs_cons_unfold (n : String) (v : Expr) (rest : Fields) (a : String)
    (c : Ctx) :
    emitJsonPairs (.cons n v rest) a c = (do
      let (vs, c1) ← emitExpr v a c
      match rest with
      | .nil => pure (sq ++ n ++ sq ++ ", " ++ vs, c1)
      | .cons m w r2 => do
          let (restSql, c2) ← emitJsonPairs (.cons m w r2) a c1
          pure (sq ++ n ++ sq ++ ", " ++ vs ++ ", " ++ restSql, c2)) := by
  cases rest <;> rfl

/-- Fueled/unfueled agreement: with fuel at least the IR size, the
fuel-indexed emitters compute exactly the (totalized) emitters'
results.  This is the termination bound of the `emitQuery`/`emitExpr`
walk: recursion depth never exceeds the IR node count. -/
theorem emit_fueled_agree :
    ∀ fuel : Nat,
      (∀ q c, sizeE q ≤ fuel → emitQueryF fuel q c = (emitQuery q c).toOption) ∧
      (∀ e a c, sizeE e < fuel → emitExprF fuel e a c = (emitExpr e a c).toOption) ∧
      (∀ fs a c, sizeF fs < fuel →
        emitRecordFieldsF fuel fs a c = (emitRecordFields fs a c).toOption) ∧
      (∀ fs a c, sizeF fs < fuel →
        emitJsonPairsF fuel fs a c = (emitJsonPairs fs a c).toOption) := by
  intro fuel
  induction fuel with
  | zero =>
    refine ⟨?_, ?_, ?_, ?_⟩
    · intro q c hsz
      have := sizeE_pos q
      omega
    · intro e a c hsz
      omega
    · intro fs a c hsz
      omega
    · intro fs a c hsz
      omega
  | succ fuel ih =>
    obtain ⟨ihQ, ihE, ihF, ihJ⟩ := ih
    refine ⟨?_, ?_, ?_, ?_⟩
    · intro q c hsz
      cases q with
      | table tname ts => rfl
      | array vs => cases vs <;> rfl
      | filter src p =>
        have hps := sizeE_pos src
        have hpe := sizeE_pos p
        simp only [sizeE] at hsz
        rw [emitQuery_filter_unfold]
        simp only [emitQueryF]
        rw [ihQ src c (by omega)]
        cases hs : emitQuery src c with
        | error m => simp [toOption_ok, toOption_error, error_bind, ok_bind, emap_ok, emap_error, fmap_ok, fmap_error, osome_bind, onone_bind, ofmap_some, ofmap_none, pure_eq_ok]
        | ok v =>
          obtain ⟨ssql, sa, c1⟩ := v
          simp only [toOption_ok, toOption_error, error_bind, ok_bind, emap_ok, emap_error, fmap_ok, fmap_error, osome_bind, onone_bind, ofmap_some, ofmap_none, pure_eq_ok]
          rw [ihE p sa _ (by omega)]
          cases he : emitExpr p sa (registerAlias c1 (.filter src p) sa) with
          | error m => simp [toOption_ok, toOption_error, error_bind, ok_bind, emap_ok, emap_error, fmap_ok, fmap_error, osome_bind, onone_bind, ofmap_some, ofmap_none, pure_eq_ok]
          | ok w =>
            obtain ⟨psql, c3⟩ := w
            simp [toOption_ok, toOption_error, error_bind, ok_bind, emap_ok, emap_error, fmap_ok, fmap_error, osome_bind, onone_bind, ofmap_some, ofmap_none, pure_eq_ok]
      | sort src ord =>
        have hps := sizeE_pos src
        have hpe := sizeE_pos ord
        simp only [sizeE] at hsz
        rw [emitQuery_sort_unfold]
        simp only [emitQueryF]
        rw [ihQ src c (by omega)]
        cases hs : emitQuery src c with
        | error m => simp [toOption_ok, toOption_error, error_bind, ok_bind, emap_ok, emap_error, fmap_ok, fmap_error, osome_bind, onone_bind, ofmap_some, ofmap_none, pure_eq_ok]
        | ok v =>
          obtain ⟨ssql, sa, c1⟩ := v
          simp only [toOption_ok, toOption_error, error_bind, ok_bind, emap_ok, emap_error, fmap_ok, fmap_error, osome_bind, onone_bind, ofmap_some, ofmap_none, pure_eq_ok]
          rw [ihE ord sa _ (by omega)]
          cases he : emitExpr ord sa c1 with
          | error m => simp [toOption_ok, toOption_error, error_bind, ok_bind, emap_ok, emap_error, fmap_ok, fmap_error, osome_bind, onone_bind, ofmap_some, ofmap_none, pure_eq_ok]
          | ok w =>
            obtain ⟨psql, c3⟩ := w
            simp [toOption_ok, toOption_error, error_bind, ok_bind, emap_ok, emap_error, fmap_ok, fmap_error, osome_bind, onone_bind, ofmap_some, ofmap_none, pure_eq_ok]
      | limit src nn =>
        have hps := sizeE_pos src
        have hpe := sizeE_pos nn
        simp only [sizeE] at hsz
        rw [emitQuery_limit_unfold]
        simp only [emitQueryF]
        rw [ihQ src c (by omega)]
        cases hs : emitQuery src c with
        | error m => simp [toOption_ok, toOption_error, error_bind, ok_bind, emap_ok, emap_error, fmap_ok, fmap_error, osome_bind, onone_bind, ofmap_some, ofmap_none, pure_eq_ok]
        | ok v =>
          obtain ⟨ssql, sa, c1⟩ := v
          simp only [toOption_ok, toOption_error, error_bind, ok_bind, emap_ok, emap_error, fmap_ok, fmap_error, osome_bind, onone_bind, ofmap_some, ofmap_none, pure_eq_ok]
          rw [ihE nn sa _ (by omega)]
          cases he : emitExpr nn sa c1 with
          | error m => simp [toOption_ok, toOption_error, error_bind, ok_bind, emap_ok, emap_error, fmap_ok, fmap_error, osome_bind, onone_bind, ofmap_some, ofmap_none, pure_eq_ok]
          | ok w =>
            obtain ⟨psql, c3⟩ := w
            simp [toOption_ok, toOption_error, error_bind, ok_bind, emap_ok, emap_error, fmap_ok, fmap_error, osome_bind, onone_bind, ofmap_some, ofmap_none, pure_eq_ok]
      | offset src nn =>
        have hps := sizeE_pos src
        have hpe := sizeE_pos nn
        simp only [sizeE] at hsz
        rw [emitQuery_offset_unfold]
        simp only [emitQueryF]
        rw [ihQ src c (by omega)]
        cases hs : emitQuery src c with
        | error m => simp [toOption_ok, toOption_error, error_bind, ok_bind, emap_ok, emap_error, fmap_ok, fmap_error, osome_bind, onone_bind, ofmap_some, ofmap_none, pure_eq_ok]
        | ok v =>
          obtain ⟨ssql, sa, c1⟩ := v
          simp only [toOption_ok, toOption_error, error_bind, ok_bind, emap_ok, emap_error, fmap_ok, fmap_error, osome_bind, onone_bind, ofmap_some, ofmap_none, pure_eq_ok]
          rw [ihE nn sa _ (by omega)]
          cases he : emitExpr nn sa c1 with
          | error m => simp [toOption_ok, toOption_error, error_bind, ok_bind, emap_ok, emap_error, fmap_ok, fmap_error, osome_bind, onone_bind, ofmap_some, ofmap_none, pure_eq_ok]
          | ok w =>
            obtain ⟨psql, c3⟩ := w
            simp [toOption_ok, toOption_error, error_bind, ok_bind, emap_ok, emap_error, fmap_ok, fmap_error, osome_bind, onone_bind, ofmap_some, ofmap_none, pure_eq_ok]
      | group_by src key =>
        have hps := sizeE_pos src
        have hpe := sizeE_pos key
        simp only [sizeE] at hsz
        rw [emitQuery_group_by_unfold]
        simp only [emitQueryF]
        rw [ihQ src c (by omega)]
        cases hs : emitQuery src c with
        | error m => simp [toOption_ok, toOption_error, error_bind, ok_bind, emap_ok, emap_error, fmap_ok, fmap_error, osome_bind, onone_bind, ofmap_some, ofmap_none, pure_eq_ok]
        | ok v =>
          obtain ⟨ssql, sa, c1⟩ := v
          simp only [toOption_ok, toOption_error, error_bind, ok_bind, emap_ok, emap_error, fmap_ok, fmap_error, osome_bind, onone_bind, ofmap_some, ofmap_none, pure_eq_ok]
          rw [ihE key sa _ (by omega)]
          cases he : emitExpr key sa c1 with
          | error m => simp [toOption_ok, toOption_error, error_bind, ok_bind, emap_ok, emap_error, fmap_ok, fmap_error, osome_bind, onone_bind, ofmap_some, ofmap_none, pure_eq_ok]
          | ok w =>
            obtain ⟨psql, c3⟩ := w
            simp [toOption_ok, toOption_error, error_bind, ok_bind, emap_ok, emap_error, fmap_ok, fmap_error, osome_bind, onone_bind, ofmap_some, ofmap_none, pure_eq_ok]
      | set_op op l r =>
        have hpl := sizeE_pos l
        have hpr := sizeE_pos r
        simp only [sizeE] at hsz
        rw [emitQuery_set_op_unfold]
        simp only [emitQueryF]
        rw [ihQ l c (by omega)]
        cases hl : emitQuery l c with
        | error m => simp [toOption_ok, toOption_error, error_bind, ok_bind, emap_ok, emap_error, fmap_ok, fmap_error, osome_bind, onone_bind, ofmap_some, ofmap_none, pure_eq_ok]
        | ok v =>
          obtain ⟨lsql, la, c1⟩ := v
          simp only [toOption_ok, toOption_error, error_bind, ok_bind, emap_ok, emap_error, fmap_ok, fmap_error, osome_bind, onone_bind, ofmap_some, ofmap_none, pure_eq_ok]
          rw [ihQ r c1 (by omega)]
          cases hr : emitQuery r c1 with
          | error m => simp [toOption_ok, toOption_error, error_bind, ok_bind, emap_ok, emap_error, fmap_ok, fmap_error, osome_bind, onone_bind, ofmap_some, ofmap_none, pure_eq_ok]
          | ok w =>
            obtain ⟨rsql, ra, c2⟩ := w
            simp [toOption_ok, toOption_error, error_bind, ok_bind, emap_ok, emap_error, fmap_ok, fmap_error, osome_bind, onone_bind, ofmap_some, ofmap_none, pure_eq_ok]
      | flat_map src body =>
        have hps := sizeE_pos src
        have hpb := sizeE_pos body
        simp only [sizeE] at hsz
        rw [emitQuery_flat_map_unfold]
        simp only [emitQueryF]
        rw [ihQ src c (by omega)]
        cases hs : emitQuery src c with
        | error m => simp [toOption_ok, toOption_error, error_bind, ok_bind, emap_ok, emap_error, fmap_ok, fmap_error, osome_bind, onone_bind, ofmap_some, ofmap_none, pure_eq_ok]
        | ok v =>
          obtain ⟨ssql, sa, c1⟩ := v
          simp only [toOption_ok, toOption_error, error_bind, ok_bind, emap_ok, emap_error, fmap_ok, fmap_error, osome_bind, onone_bind, ofmap_some, ofmap_none, pure_eq_ok]
          rw [ihQ body c1 (by omega)]
          cases hb : emitQuery body c1 with
          | error m => simp [toOption_ok, toOption_error, error_bind, ok_bind, emap_ok, emap_error, fmap_ok, fmap_error, osome_bind, onone_bind, ofmap_some, ofmap_none, pure_eq_ok]
          | ok w =>
            obtain ⟨fsql, fa, c2⟩ := w
            simp [toOption_ok, toOption_error, error_bind, ok_bind, emap_ok, emap_error, fmap_ok, fmap_error, osome_bind, onone_bind, ofmap_some, ofmap_none, pure_eq_ok]
      | map src proj =>
        cases proj with
        | row rr =>
          have hps := sizeE_pos src
          simp only [sizeE] at hsz
          rw [emitQuery_map_row_unfold0]
          simp only [emitQueryF]
          rw [ihQ src c (by omega)]
          cases hs : emitQuery src c with
          | error m => simp [toOption_ok, toOption_error, error_bind, ok_bind, emap_ok, emap_error, fmap_ok, fmap_error, osome_bind, onone_bind, ofmap_some, ofmap_none, pure_eq_ok]
          | ok v =>
            obtain ⟨ssql, sa, c1⟩ := v
            simp [toOption_ok, toOption_error, error_bind, ok_bind, emap_ok, emap_error, fmap_ok, fmap_error, osome_bind, onone_bind, ofmap_some, ofmap_none, pure_eq_ok]
        | record fs =>
          have hps := sizeE_pos src
          have hpf := sizeF_pos fs
          simp only [sizeE] at hsz
          rw [emitQuery_map_record_unfold]
          simp only [emitQueryF]
          rw [ihQ src c (by omega)]
          cases hs : emitQuery src c with
          | error m => simp [toOption_ok, toOption_error, error_bind, ok_bind, emap_ok, emap_error, fmap_ok, fmap_error, osome_bind, onone_bind, ofmap_some, ofmap_none, pure_eq_ok]
          | ok v =>
            obtain ⟨ssql, sa, c1⟩ := v
            simp only [toOption_ok, toOption_error, error_bind, ok_bind, emap_ok, emap_error, fmap_ok, fmap_error, osome_bind, onone_bind, ofmap_some, ofmap_none, pure_eq_ok]
            rw [ihF fs sa c1 (by omega)]
            cases hf : emitRecordFields fs sa c1 with
            | error m => simp [toOption_ok, toOption_error, error_bind, ok_bind, emap_ok, emap_error, fmap_ok, fmap_error, osome_bind, onone_bind, ofmap_some, ofmap_none, pure_eq_ok]
            | ok w =>
              obtain ⟨fl, c2⟩ := w
              simp [toOption_ok, toOption_error, error_bind, ok_bind, emap_ok, emap_error, fmap_ok, fmap_error, osome_bind, onone_bind, ofmap_some, ofmap_none, pure_eq_ok]
        | _ =>
          have hps := sizeE_pos src
          simp only [sizeE] at hsz
          rw [emitQuery_map_scalar_unfold _ _ _ (by rfl) (by rfl)]
          simp only [emitQueryF]
          rw [ihQ src c (by omega)]
          cases hs : emitQuery src c with
          | error m => simp [toOption_ok, toOption_error, error_bind, ok_bind, emap_ok, emap_error, fmap_ok, fmap_error, osome_bind, onone_bind, ofmap_some, ofmap_none, pure_eq_ok]
          | ok v =>
            obtain ⟨ssql, sa, c1⟩ := v
            simp only [toOption_ok, toOption_error, error_bind, ok_bind, emap_ok, emap_error, fmap_ok, fmap_error, osome_bind, onone_bind, ofmap_some, ofmap_none, pure_eq_ok]
            rw [ihE _ sa c1 (by simp [sizeE] <;> omega)]
            cases he : emitExpr _ sa c1 with
            | error m => simp [toOption_ok, toOption_error, error_bind, ok_bind, emap_ok, emap_error, fmap_ok, fmap_error, osome_bind, onone_bind, ofmap_some, ofmap_none, pure_eq_ok]
            | ok w =>
              obtain ⟨sc, c2⟩ := w
              simp [toOption_ok, toOption_error, error_bind, ok_bind, emap_ok, emap_error, fmap_ok, fmap_error, osome_bind, onone_bind, ofmap_some, ofmap_none, pure_eq_ok]
      | _ => rfl
    · intro e a c hsz
      cases e with
      | field src f => cases src <;> rfl
      | row src => rfl
      | number n => rfl
      | string s => rfl
      | boolean b => rfl
      | null => rfl
      | first src =>
        have hp := sizeE_pos src
        simp only [sizeE] at hsz
        rw [emitExpr_first_unfold]
        simp only [emitExprF]
        rw [ihE src a c (by omega)]
        cases hs : emitExpr src a c with
        | error m => simp [toOption_ok, toOption_error, error_bind, ok_bind, emap_ok, emap_error, fmap_ok, fmap_error, osome_bind, onone_bind, ofmap_some, ofmap_none, pure_eq_ok]
        | ok v =>
          obtain ⟨s1, c1⟩ := v
          simp [toOption_ok, toOption_error, error_bind, ok_bind, emap_ok, emap_error, fmap_ok, fmap_error, osome_bind, onone_bind, ofmap_some, ofmap_none, pure_eq_ok]
      | not e1 =>
        have hp := sizeE_pos e1
        simp only [sizeE] at hsz
        rw [emitExpr_not_unfold]
        simp only [emitExprF]
        rw [ihE e1 a c (by omega)]
        cases hs : emitExpr e1 a c with
        | error m => simp [toOption_ok, toOption_error, error_bind, ok_bind, emap_ok, emap_error, fmap_ok, fmap_error, osome_bind, onone_bind, ofmap_some, ofmap_none, pure_eq_ok]
        | ok v =>
          obtain ⟨s1, c1⟩ := v
          simp [toOption_ok, toOption_error, error_bind, ok_bind, emap_ok, emap_error, fmap_ok, fmap_error, osome_bind, onone_bind, ofmap_some, ofmap_none, pure_eq_ok]
      | math_op op l r =>
        have hpl := sizeE_pos l
        have hpr := sizeE_pos r
        simp only [sizeE] at hsz
        rw [emitExpr_math_unfold]
        simp only [emitExprF]
        rw [ihE l a c (by omega)]
        cases hs : emitExpr l a c with
        | error m => simp [toOption_ok, toOption_error, error_bind, ok_bind, emap_ok, emap_error, fmap_ok, fmap_error, osome_bind, onone_bind, ofmap_some, ofmap_none, pure_eq_ok]
        | ok v =>
          obtain ⟨ls, c1⟩ := v
          simp only [toOption_ok, toOption_error, error_bind, ok_bind, emap_ok, emap_error, fmap_ok, fmap_error, osome_bind, onone_bind, ofmap_some, ofmap_none, pure_eq_ok]
          rw [ihE r a c1 (by omega)]
          cases h2 : emitExpr r a c1 with
          | error m => simp [toOption_ok, toOption_error, error_bind, ok_bind, emap_ok, emap_error, fmap_ok, fmap_error, osome_bind, onone_bind, ofmap_some, ofmap_none, pure_eq_ok]
          | ok w =>
            obtain ⟨rs, c2⟩ := w
            simp [toOption_ok, toOption_error, error_bind, ok_bind, emap_ok, emap_error, fmap_ok, fmap_error, osome_bind, onone_bind, ofmap_some, ofmap_none, pure_eq_ok]
      | comparison_op op l r =>
        have hpl := sizeE_pos l
        have hpr := sizeE_pos r
        simp only [sizeE] at hsz
        rw [emitExpr_cmp_unfold]
        simp only [emitExprF]
        rw [ihE l a c (by omega)]
        cases hs : emitExpr l a c with
        | error m => simp [toOption_ok, toOption_error, error_bind, ok_bind, emap_ok, emap_error, fmap_ok, fmap_error, osome_bind, onone_bind, ofmap_some, ofmap_none, pure_eq_ok]
        | ok v =>
          obtain ⟨ls, c1⟩ := v
          simp only [toOption_ok, toOption_error, error_bind, ok_bind, emap_ok, emap_error, fmap_ok, fmap_error, osome_bind, onone_bind, ofmap_some, ofmap_none, pure_eq_ok]
          rw [ihE r a c1 (by omega)]
          cases h2 : emitExpr r a c1 with
          | error m => simp [toOption_ok, toOption_error, error_bind, ok_bind, emap_ok, emap_error, fmap_ok, fmap_error, osome_bind, onone_bind, ofmap_some, ofmap_none, pure_eq_ok]
          | ok w =>
            obtain ⟨rs, c2⟩ := w
            simp [toOption_ok, toOption_error, error_bind, ok_bind, emap_ok, emap_error, fmap_ok, fmap_error, osome_bind, onone_bind, ofmap_some, ofmap_none, pure_eq_ok]
      | logical_op op l r =>
        have hpl := sizeE_pos l
        have hpr := sizeE_pos r
        simp only [sizeE] at hsz
        rw [emitExpr_logical_unfold]
        simp only [emitExprF]
        rw [ihE l a c (by omega)]
        cases hs : emitExpr l a c with
        | error m => simp [toOption_ok, toOption_error, error_bind, ok_bind, emap_ok, emap_error, fmap_ok, fmap_error, osome_bind, onone_bind, ofmap_some, ofmap_none, pure_eq_ok]
        | ok v =>
          obtain ⟨ls, c1⟩ := v
          simp only [toOption_ok, toOption_error, error_bind, ok_bind, emap_ok, emap_error, fmap_ok, fmap_error, osome_bind, onone_bind, ofmap_some, ofmap_none, pure_eq_ok]
          rw [ihE r a c1 (by omega)]
          cases h2 : emitExpr r a c1 with
          | error m => simp [toOption_ok, toOption_error, error_bind, ok_bind, emap_ok, emap_error, fmap_ok, fmap_error, osome_bind, onone_bind, ofmap_some, ofmap_none, pure_eq_ok]
          | ok w =>
            obtain ⟨rs, c2⟩ := w
            simp [toOption_ok, toOption_error, error_bind, ok_bind, emap_ok, emap_error, fmap_ok, fmap_error, osome_bind, onone_bind, ofmap_some, ofmap_none, pure_eq_ok]
      | eq l r =>
        have hpl := sizeE_pos l
        have hpr := sizeE_pos r
        simp only [sizeE] at hsz
        rw [emitExpr_eq_unfold]
        simp only [emitExprF]
        by_cases hr : r = Expr.null
        · rw [if_pos hr, if_pos hr, ihE l a c (by omega)]
          cases hs : emitExpr l a c with
          | error m => simp [toOption_ok, toOption_error, error_bind, ok_bind, emap_ok, emap_error, fmap_ok, fmap_error, osome_bind, onone_bind, ofmap_some, ofmap_none, pure_eq_ok]
          | ok v =>
            obtain ⟨ls, c1⟩ := v
            simp [toOption_ok, toOption_error, error_bind, ok_bind, emap_ok, emap_error, fmap_ok, fmap_error, osome_bind, onone_bind, ofmap_some, ofmap_none, pure_eq_ok]
        · rw [if_neg hr, if_neg hr]
          by_cases hl : l = Expr.null
          · rw [if_pos hl, if_pos hl, ihE r a c (by omega)]
            cases hs : emitExpr r a c with
            | error m => simp [toOption_ok, toOption_error, error_bind, ok_bind, emap_ok, emap_error, fmap_ok, fmap_error, osome_bind, onone_bind, ofmap_some, ofmap_none, pure_eq_ok]
            | ok v =>
              obtain ⟨rs, c1⟩ := v
              simp [toOption_ok, toOption_error, error_bind, ok_bind, emap_ok, emap_error, fmap_ok, fmap_error, osome_bind, onone_bind, ofmap_some, ofmap_none, pure_eq_ok]
          · rw [if_neg hl, if_neg hl, ihE l a c (by omega)]
            cases hs : emitExpr l a c with
            | error m => simp [toOption_ok, toOption_error, error_bind, ok_bind, emap_ok, emap_error, fmap_ok, fmap_error, osome_bind, onone_bind, ofmap_some, ofmap_none, pure_eq_ok]
            | ok v =>
              obtain ⟨ls, c1⟩ := v
              simp only [toOption_ok, toOption_error, error_bind, ok_bind, emap_ok, emap_error, fmap_ok, fmap_error, osome_bind, onone_bind, ofmap_some, ofmap_none, pure_eq_ok]
              rw [ihE r a c1 (by omega)]
              cases h2 : emitExpr r a c1 with
              | error m => simp [toOption_ok, toOption_error, error_bind, ok_bind, emap_ok, emap_error, fmap_ok, fmap_error, osome_bind, onone_bind, ofmap_some, ofmap_none, pure_eq_ok]
              | ok w =>
                obtain ⟨rs, c2⟩ := w
                simp [toOption_ok, toOption_error, error_bind, ok_bind, emap_ok, emap_error, fmap_ok, fmap_error, osome_bind, onone_bind, ofmap_some, ofmap_none, pure_eq_ok]
      | count src =>
        have hp := sizeE_pos src
        simp only [sizeE] at hsz
        rw [emitExpr_count_unfold]
        simp only [emitExprF]
        by_cases hf : isFieldOrRow src = true
        · rw [if_pos hf, if_pos hf, ihE src a c (by omega)]
          cases hs : emitExpr src a c with
          | error m => simp [toOption_ok, toOption_error, error_bind, ok_bind, emap_ok, emap_error, fmap_ok, fmap_error, osome_bind, onone_bind, ofmap_some, ofmap_none, pure_eq_ok]
          | ok v =>
            obtain ⟨fsql, c1⟩ := v
            simp [toOption_ok, toOption_error, error_bind, ok_bind, emap_ok, emap_error, fmap_ok, fmap_error, osome_bind, onone_bind, ofmap_some, ofmap_none, pure_eq_ok]
        · rw [if_neg hf, if_neg hf, ihQ src c (by omega)]
          cases hs : emitQuery src c with
          | error m => simp [toOption_ok, toOption_error, error_bind, ok_bind, emap_ok, emap_error, fmap_ok, fmap_error, osome_bind, onone_bind, ofmap_some, ofmap_none, pure_eq_ok]
          | ok v =>
            obtain ⟨ssql, sa, c1⟩ := v
            simp [toOption_ok, toOption_error, error_bind, ok_bind, emap_ok, emap_error, fmap_ok, fmap_error, osome_bind, onone_bind, ofmap_some, ofmap_none, pure_eq_ok]
      | number_window op src =>
        simp only [sizeE] at hsz
        rw [emitExpr_nw_unfold]
        simp only [emitExprF]
        rw [ihQ src c (by omega)]
        cases hs : emitQuery src c with
        | error m => simp [toOption_ok, toOption_error, error_bind, ok_bind, emap_ok, emap_error, fmap_ok, fmap_error, osome_bind, onone_bind, ofmap_some, ofmap_none, pure_eq_ok]
        | ok v =>
          obtain ⟨ssql, sa, c1⟩ := v
          simp [toOption_ok, toOption_error, error_bind, ok_bind, emap_ok, emap_error, fmap_ok, fmap_error, osome_bind, onone_bind, ofmap_some, ofmap_none, pure_eq_ok]
      | scalar_window op src =>
        simp only [sizeE] at hsz
        rw [emitExpr_sw_unfold]
        simp only [emitExprF]
        rw [ihQ src c (by omega)]
        cases hs : emitQuery src c with
        | error m => simp [toOption_ok, toOption_error, error_bind, ok_bind, emap_ok, emap_error, fmap_ok, fmap_error, osome_bind, onone_bind, ofmap_some, ofmap_none, pure_eq_ok]
        | ok v =>
          obtain ⟨ssql, sa, c1⟩ := v
          simp [toOption_ok, toOption_error, error_bind, ok_bind, emap_ok, emap_error, fmap_ok, fmap_error, osome_bind, onone_bind, ofmap_some, ofmap_none, pure_eq_ok]
      | record fs =>
        simp only [sizeE] at hsz
        rw [emitExpr_record_unfold]
        simp only [emitExprF]
        rw [ihJ fs a c (by omega)]
        cases hs : emitJsonPairs fs a c with
        | error m => simp [toOption_ok, toOption_error, error_bind, ok_bind, emap_ok, emap_error, fmap_ok, fmap_error, osome_bind, onone_bind, ofmap_some, ofmap_none, pure_eq_ok]
        | ok v =>
          obtain ⟨ps, c1⟩ := v
          simp [toOption_ok, toOption_error, error_bind, ok_bind, emap_ok, emap_error, fmap_ok, fmap_error, osome_bind, onone_bind, ofmap_some, ofmap_none, pure_eq_ok]
      | table n ts =>
        rw [emitExpr_query_delegates (Expr.table n ts) a c rfl]
        simp only [emitExprF]
        rw [ihQ (Expr.table n ts) c (by omega)]
        cases hs : emitQuery (Expr.table n ts) c with
        | error m => simp [toOption_ok, toOption_error, error_bind, ok_bind, emap_ok, emap_error, fmap_ok, fmap_error, osome_bind, onone_bind, ofmap_some, ofmap_none, pure_eq_ok]
        | ok v =>
          obtain ⟨ssql, sa, c1⟩ := v
          simp [toOption_ok, toOption_error, error_bind, ok_bind, emap_ok, emap_error, fmap_ok, fmap_error, osome_bind, onone_bind, ofmap_some, ofmap_none, pure_eq_ok]
      | filter src p =>
        rw [emitExpr_query_delegates (Expr.filter src p) a c rfl]
        simp only [emitExprF]
        rw [ihQ (Expr.filter src p) c (by omega)]
        cases hs : emitQuery (Expr.filter src p) c with
        | error m => simp [toOption_ok, toOption_error, error_bind, ok_bind, emap_ok, emap_error, fmap_ok, fmap_error, osome_bind, onone_bind, ofmap_some, ofmap_none, pure_eq_ok]
        | ok v =>
          obtain ⟨ssql, sa, c1⟩ := v
          simp [toOption_ok, toOption_error, error_bind, ok_bind, emap_ok, emap_error, fmap_ok, fmap_error, osome_bind, onone_bind, ofmap_some, ofmap_none, pure_eq_ok]
      | map src proj =>
        rw [emitExpr_query_delegates (Expr.map src proj) a c rfl]
        simp only [emitExprF]
        rw [ihQ (Expr.map src proj) c (by omega)]
        cases hs : emitQuery (Expr.map src proj) c with
        | error m => simp [toOption_ok, toOption_error, error_bind, ok_bind, emap_ok, emap_error, fmap_ok, fmap_error, osome_bind, onone_bind, ofmap_some, ofmap_none, pure_eq_ok]
        | ok v =>
          obtain ⟨ssql, sa, c1⟩ := v
          simp [toOption_ok, toOption_error, error_bind, ok_bind, emap_ok, emap_error, fmap_ok, fmap_error, osome_bind, onone_bind, ofmap_some, ofmap_none, pure_eq_ok]
      | sort src ord =>
        rw [emitExpr_query_delegates (Expr.sort src ord) a c rfl]
        simp only [emitExprF]
        rw [ihQ (Expr.sort src ord) c (by omega)]
        cases hs : emitQuery (Expr.sort src ord) c with
        | error m => simp [toOption_ok, toOption_error, error_bind, ok_bind, emap_ok, emap_error, fmap_ok, fmap_error, osome_bind, onone_bind, ofmap_some, ofmap_none, pure_eq_ok]
        | ok v =>
          obtain ⟨ssql, sa, c1⟩ := v
          simp [toOption_ok, toOption_error, error_bind, ok_bind, emap_ok, emap_error, fmap_ok, fmap_error, osome_bind, onone_bind, ofmap_some, ofmap_none, pure_eq_ok]
      | limit src nn =>
        rw [emitExpr_query_delegates (Expr.limit src nn) a c rfl]
        simp only [emitExprF]
        rw [ihQ (Expr.limit src nn) c (by omega)]
        cases hs : emitQuery (Expr.limit src nn) c with
        | error m => simp [toOption_ok, toOption_error, error_bind, ok_bind, emap_ok, emap_error, fmap_ok, fmap_error, osome_bind, onone_bind, ofmap_some, ofmap_none, pure_eq_ok]
        | ok v =>
          obtain ⟨ssql, sa, c1⟩ := v
          simp [toOption_ok, toOption_error, error_bind, ok_bind, emap_ok, emap_error, fmap_ok, fmap_error, osome_bind, onone_bind, ofmap_some, ofmap_none, pure_eq_ok]
      | offset src nn =>
        rw [emitExpr_query_delegates (Expr.offset src nn) a c rfl]
        simp only [emitExprF]
        rw [ihQ (Expr.offset src nn) c (by omega)]
        cases hs : emitQuery (Expr.offset src nn) c with
        | error m => simp [toOption_ok, toOption_error, error_bind, ok_bind, emap_ok, emap_error, fmap_ok, fmap_error, osome_bind, onone_bind, ofmap_some, ofmap_none, pure_eq_ok]
        | ok v =>
          obtain ⟨ssql, sa, c1⟩ := v
          simp [toOption_ok, toOption_error, error_bind, ok_bind, emap_ok, emap_error, fmap_ok, fmap_error, osome_bind, onone_bind, ofmap_some, ofmap_none, pure_eq_ok]
      | set_op op l r =>
        rw [emitExpr_query_delegates (Expr.set_op op l r) a c rfl]
        simp only [emitExprF]
        rw [ihQ (Expr.set_op op l r) c (by omega)]
        cases hs : emitQuery (Expr.set_op op l r) c with
        | error m => simp [toOption_ok, toOption_error, error_bind, ok_bind, emap_ok, emap_error, fmap_ok, fmap_error, osome_bind, onone_bind, ofmap_some, ofmap_none, pure_eq_ok]
        | ok v =>
          obtain ⟨ssql, sa, c1⟩ := v
          simp [toOption_ok, toOption_error, error_bind, ok_bind, emap_ok, emap_error, fmap_ok, fmap_error, osome_bind, onone_bind, ofmap_some, ofmap_none, pure_eq_ok]
      | group_by src key =>
        rw [emitExpr_query_delegates (Expr.group_by src key) a c rfl]
        simp only [emitExprF]
        rw [ihQ (Expr.group_by src key) c (by omega)]
        cases hs : emitQuery (Expr.group_by src key) c with
        | error m => simp [toOption_ok, toOption_error, error_bind, ok_bind, emap_ok, emap_error, fmap_ok, fmap_error, osome_bind, onone_bind, ofmap_some, ofmap_none, pure_eq_ok]
        | ok v =>
          obtain ⟨ssql, sa, c1⟩ := v
          simp [toOption_ok, toOption_error, error_bind, ok_bind, emap_ok, emap_error, fmap_ok, fmap_error, osome_bind, onone_bind, ofmap_some, ofmap_none, pure_eq_ok]
      | flat_map src body =>
        rw [emitExpr_query_delegates (Expr.flat_map src body) a c rfl]
        simp only [emitExprF]
        rw [ihQ (Expr.flat_map src body) c (by omega)]
        cases hs : emitQuery (Expr.flat_map src body) c with
        | error m => simp [toOption_ok, toOption_error, error_bind, ok_bind, emap_ok, emap_error, fmap_ok, fmap_error, osome_bind, onone_bind, ofmap_some, ofmap_none, pure_eq_ok]
        | ok v =>
          obtain ⟨ssql, sa, c1⟩ := v
          simp [toOption_ok, toOption_error, error_bind, ok_bind, emap_ok, emap_error, fmap_ok, fmap_error, osome_bind, onone_bind, ofmap_some, ofmap_none, pure_eq_ok]
      | array vs =>
        rw [emitExpr_query_delegates (Expr.array vs) a c rfl]
        simp only [emitExprF]
        rw [ihQ (Expr.array vs) c (by omega)]
        cases hs : emitQuery (Expr.array vs) c with
        | error m => simp [toOption_ok, toOption_error, error_bind, ok_bind, emap_ok, emap_error, fmap_ok, fmap_error, osome_bind, onone_bind, ofmap_some, ofmap_none, pure_eq_ok]
        | ok v =>
          obtain ⟨ssql, sa, c1⟩ := v
          simp [toOption_ok, toOption_error, error_bind, ok_bind, emap_ok, emap_error, fmap_ok, fmap_error, osome_bind, onone_bind, ofmap_some, ofmap_none, pure_eq_ok]
    · intro fs a c hsz
      cases fs with
      | nil => rfl
      | cons n v rest =>
        have hpv := sizeE_pos v
        have hpr := sizeF_pos rest
        simp only [sizeF] at hsz
        rw [emitRecordFields_cons_unfold]
        simp only [emitRecordFieldsF]
        rw [ihE v a c (by omega)]
        cases rest with
        | nil =>
          cases he : emitExpr v a c with
          | error m => simp [toOption_ok, toOption_error, error_bind, ok_bind, emap_ok, emap_error, fmap_ok, fmap_error, osome_bind, onone_bind, ofmap_some, ofmap_none, pure_eq_ok]
          | ok w =>
            obtain ⟨vs, c1⟩ := w
            simp [toOption_ok, toOption_error, error_bind, ok_bind, emap_ok, emap_error, fmap_ok, fmap_error, osome_bind, onone_bind, ofmap_some, ofmap_none, pure_eq_ok]
        | cons m2 w2 r2 =>
          simp only [sizeF] at hsz hpr
          cases he : emitExpr v a c with
          | error m => simp [toOption_ok, toOption_error, error_bind, ok_bind, emap_ok, emap_error, fmap_ok, fmap_error, osome_bind, onone_bind, ofmap_some, ofmap_none, pure_eq_ok]
          | ok w =>
            obtain ⟨vs, c1⟩ := w
            simp only [toOption_ok, toOption_error, error_bind, ok_bind, emap_ok, emap_error, fmap_ok, fmap_error, osome_bind, onone_bind, ofmap_some, ofmap_none, pure_eq_ok]
            rw [ihF (.cons m2 w2 r2) a c1 (by simp only [sizeF]; omega)]
            cases hrest : emitRecordFields (.cons m2 w2 r2) a c1 with
            | error m3 => simp [toOption_ok, toOption_error, error_bind, ok_bind, emap_ok, emap_error, fmap_ok, fmap_error, osome_bind, onone_bind, ofmap_some, ofmap_none, pure_eq_ok]
            | ok w3 =>
              obtain ⟨rs, c2⟩ := w3
              simp [toOption_ok, toOption_error, error_bind, ok_bind, emap_ok, emap_error, fmap_ok, fmap_error, osome_bind, onone_bind, ofmap_some, ofmap_none, pure_eq_ok]
    · intro fs a c hsz
      cases fs with
      | nil => rfl
      | cons n v rest =>
        have hpv := sizeE_pos v
        have hpr := sizeF_pos rest
        simp only [sizeF] at hsz
        rw [emitJsonPairs_cons_unfold]
        simp only [emitJsonPairsF]
        rw [ihE v a c (by omega)]
        cases rest with
        | nil =>
          cases he : emitExpr v a c with
          | error m => simp [toOption_ok, toOption_error, error_bind, ok_bind, emap_ok, emap_error, fmap_ok, fmap_error, osome_bind, onone_bind, ofmap_some, ofmap_none, pure_eq_ok]
          | ok w =>
            obtain ⟨vs, c1⟩ := w
            simp [toOption_ok, toOption_error, error_bind, ok_bind, emap_ok, emap_error, fmap_ok, fmap_error, osome_bind, onone_bind, ofmap_some, ofmap_none, pure_eq_ok]
        | cons m2 w2 r2 =>
          simp only [sizeF] at hsz hpr
          cases he : emitExpr v a c with
          | error m => simp [toOption_ok, toOption_error, error_bind, ok_bind, emap_ok, emap_error, fmap_ok, fmap_error, osome_bind, onone_bind, ofmap_some, ofmap_none, pure_eq_ok]
          | ok w =>
            obtain ⟨vs, c1⟩ := w
            simp only [toOption_ok, toOption_error, error_bind, ok_bind, emap_ok, emap_error, fmap_ok, fmap_error, osome_bind, onone_bind, ofmap_some, ofmap_none, pure_eq_ok]
            rw [ihJ (.cons m2 w2 r2) a c1 (by simp only [sizeF]; omega)]
            cases hrest : emitJsonPairs (.cons m2 w2 r2) a c1 with
            | error m3 => simp [toOption_ok, toOption_error, error_bind, ok_bind, emap_ok, emap_error, fmap_ok, fmap_error, osome_bind, onone_bind, ofmap_some, ofmap_none, pure_eq_ok]
            | ok w3 =>
              obtain ⟨rs, c2⟩ := w3
              simp [toOption_ok, toOption_error, error_bind, ok_bind, emap_ok, emap_error, fmap_ok, fmap_error, osome_bind, onone_bind, ofmap_some, ofmap_none, pure_eq_ok]

/-- C9: compilation terminates within a bound given by the acyclic IR
size: running the fuel-indexed mirror of the `emitQuery`/`emitExpr`
walk, with fuel exceeding the node count of the input, along `toSql`'s
own routing, computes exactly `toSql`'s result (its emitted SQL when the
source returns, `none` exactly when the source raises) — so the walk's
recursion depth never exceeds the IR size and it never diverges. -/
theorem c9_lowering_terminates_within_size (q : Expr) (fuel : Nat) (h : sizeE q < fuel) :
    (if isQueryType q then Option.map (fun r => r.1) (emitQueryF fuel q ⟨0, []⟩)
     else Option.map (fun r => r.1) (emitExprF fuel q "" ⟨0, []⟩)) = (toSql q).toOption := by
  unfold toSql
  by_cases hq : isQueryType q
  · rw [if_pos hq, if_pos hq, (emit_fueled_agree fuel).1 q ⟨0, []⟩ (by omega), toOption_map]
  · rw [if_neg hq, if_neg hq, (emit_fueled_agree fuel).2.1 q "" ⟨0, []⟩ h, toOption_map]

/-- C9 witness: the bound theorem at a concrete table scan with fuel 2. -/
theorem c9_lowering_terminates_within_size_witness :
    sizeE (Expr.table "t" (.cons "a" Ty.string .nil)) < 2 ∧
    (if isQueryType (Expr.table "t" (.cons "a" Ty.string .nil)) then
        Option.map (fun r => r.1) (emitQueryF 2 (.table "t" (.cons "a" .string .nil)) ⟨0, []⟩)
      else
        Option.map (fun r => r.1) (emitExprF 2 (.table "t" (.cons "a" .string .nil)) "" ⟨0, []⟩))
      = (toSql (.table "t" (.cons "a" .string .nil))).toOption :=
  ⟨by decide, c9_lowering_terminates_within_size (.table "t" (.cons "a" .string .nil)) 2
    (by decide)⟩

end Yarrql
